import Mathlib

/-!
# War estruturado (`xadrez.c`): combat resolution and mission evaluation

A shallow embedding of the battle and mission functions of `src/xadrez.c`.

* C `int` values are `Int`.  None of the arithmetic of `simular_ataque`
  can leave the 32-bit range (`simular_ataque_sem_overflow`), and the counter
  of `missao_conquistar_territorios` never exceeds the map size
  (`territorios_do_jogador_le_length`), so no wrap-around is modelled.
* `char[MAX_NOME]` strings are `String`; `strcmp(a, b) == 0` is equality and
  `strcpy(dst, src)` is assignment.
* `rand()` is a stream `rand : Nat → Nat`: `rand j` is what the `j`-th call
  made during one `simular_ataque` returns.
* A map `(const Territorio *mapa, size_t total)` is a `List Territorio`
  whose length is `total`.
* `printf` output is not modelled, except that the branch taken by
  `simular_ataque` and the figures it prints are kept in its result.
* The game loop of `main` is the fold `jogar` of its attack option `atacar`
  over the numbers typed; a failed `scanf` makes no call and is left out, and
  option 2 only reads the map.
-/

namespace War

/-! ## Constants and types -/

/-- Constant `#define NUM_TERRITORIOS 5`. -/
def NUM_TERRITORIOS : Nat := 5

/-- Constant `#define DADOS_ATAQUE 3`. -/
def DADOS_ATAQUE : Int := 3

/-- Constant `#define DADOS_DEFESA 2`. -/
def DADOS_DEFESA : Int := 2

/-- Record `typedef struct { char nome[]; char cor_exercito[]; int num_tropas; } Territorio;` -/
structure Territorio where
  nome : String
  cor_exercito : String
  num_tropas : Int
  deriving DecidableEq, Repr

/-- Enumeration `typedef enum { MISSAO_DESTRUIR_VERDE, MISSAO_CONQUISTAR_3, NUM_MISSOES } TipoMissao;` -/
inductive TipoMissao where
  | MISSAO_DESTRUIR_VERDE
  | MISSAO_CONQUISTAR_3
  | NUM_MISSOES
  deriving DecidableEq, Repr

/-- Which of the four exits of `simular_ataque` a call takes, told apart in
the source by the message printed. -/
inductive Desfecho where
  /-- Taken when `atacante->num_tropas < 2`: "precisa de pelo menos 2 tropas para atacar" -/
  | tropas_insuficientes
  /-- Taken when `defensor->num_tropas == 0`: "já está sem tropas" -/
  | defensor_sem_tropas
  /-- Message "A defesa resistiu. Batalha encerrada." -/
  | resistiu
  /-- Message "CONQUISTA!" -/
  | conquista
  deriving DecidableEq, Repr

/-- What a call of `simular_ataque` leaves behind: the two territories as
they are when it returns, the exit taken, the number of `rolar_dado` calls
made, and the two loss counters it prints (zero on the two early returns,
which are taken before the counters are declared). -/
structure Resultado where
  atacante : Territorio
  defensor : Territorio
  desfecho : Desfecho
  dados_rolados : Nat
  perdas_atacante : Int
  perdas_defensor : Int
  deriving DecidableEq, Repr

/-! ## Battle functions -/

/-- Function `rolar_dado`: `return (rand() % 6) + 1;` on the value `r` that `rand()` returned. -/
def rolar_dado (r : Nat) : Int := ((r % 6 : Nat) : Int) + 1

/-- Function `atacante_vence`: `return dado_ataque >= dado_defesa;` -/
def atacante_vence (dado_ataque dado_defesa : Int) : Bool :=
  decide (dado_ataque ≥ dado_defesa)

/-- Local `int num_dados_ataque = (atacante->num_tropas - 1 < DADOS_ATAQUE) ? atacante->num_tropas - 1 : DADOS_ATAQUE;` -/
def num_dados_ataque (atacante : Territorio) : Int :=
  if atacante.num_tropas - 1 < DADOS_ATAQUE then atacante.num_tropas - 1 else DADOS_ATAQUE

/-- Local `int num_dados_defesa = (defensor->num_tropas < DADOS_DEFESA) ? defensor->num_tropas : DADOS_DEFESA;` -/
def num_dados_defesa (defensor : Territorio) : Int :=
  if defensor.num_tropas < DADOS_DEFESA then defensor.num_tropas else DADOS_DEFESA

/-- Local `int num_confrontos = (num_dados_ataque < num_dados_defesa) ? num_dados_ataque : num_dados_defesa;` -/
def num_confrontos (nda ndd : Int) : Int :=
  if nda < ndd then nda else ndd

/-- The comparison loop of `simular_ataque`,
`for (int i = 0; i < num_confrontos; i++) { if (atacante_vence(...)) perdas_defensor++; else perdas_atacante++; }`:
the pair `(perdas_atacante, perdas_defensor)` after the first `n` iterations. -/
def comparar (dados_ataque dados_defesa : Nat → Int) : Nat → Int × Int
  | 0 => (0, 0)
  | i + 1 =>
    let p := comparar dados_ataque dados_defesa i
    if atacante_vence (dados_ataque i) (dados_defesa i) then (p.1, p.2 + 1)
    else (p.1 + 1, p.2)

/-- The attacker die at position `i`: the attacker dice are rolled first,
`for (i < num_dados_ataque) dados_ataque[i] = rolar_dado();`. -/
def dado_ataque (rand : Nat → Nat) (i : Nat) : Int := rolar_dado (rand i)

/-- The defender die at position `i`: the defender dice are rolled after the
`nda` attacker dice, `for (i < num_dados_defesa) dados_defesa[i] = rolar_dado();`. -/
def dado_defesa (rand : Nat → Nat) (nda : Int) (i : Nat) : Int :=
  rolar_dado (rand (nda.toNat + i))

/-- Function `simular_ataque(atacante, defensor)` on two distinct territories (the two
pointers never alias: `main` checks `atacante_idx != defensor_idx`). -/
def simular_ataque (rand : Nat → Nat) (atacante defensor : Territorio) : Resultado :=
  -- 1. Verificar pré-condições
  if atacante.num_tropas < 2 then
    { atacante := atacante, defensor := defensor, desfecho := Desfecho.tropas_insuficientes,
      dados_rolados := 0, perdas_atacante := 0, perdas_defensor := 0 }
  else if defensor.num_tropas = 0 then
    { atacante := atacante, defensor := defensor, desfecho := Desfecho.defensor_sem_tropas,
      dados_rolados := 0, perdas_atacante := 0, perdas_defensor := 0 }
  else
    -- 2. Definir o número de dados
    let nda := num_dados_ataque atacante
    let ndd := num_dados_defesa defensor
    -- 3. Rolar os dados
    let dados_ataque := dado_ataque rand
    let dados_defesa := dado_defesa rand nda
    -- 4. Comparar e aplicar perdas
    let nc := num_confrontos nda ndd
    let perdas := comparar dados_ataque dados_defesa nc.toNat
    let ta := atacante.num_tropas - perdas.1
    let td := defensor.num_tropas - perdas.2
    let ta := if ta < 1 then 1 else ta
    let td := if td < 0 then 0 else td
    -- 5. Checar conquista
    if td = 0 then
      { atacante := { atacante with num_tropas := ta - 1 },
        defensor := { defensor with cor_exercito := atacante.cor_exercito, num_tropas := 1 },
        desfecho := Desfecho.conquista,
        dados_rolados := nda.toNat + ndd.toNat,
        perdas_atacante := perdas.1, perdas_defensor := perdas.2 }
    else
      { atacante := { atacante with num_tropas := ta },
        defensor := { defensor with num_tropas := td },
        desfecho := Desfecho.resistiu,
        dados_rolados := nda.toNat + ndd.toNat,
        perdas_atacante := perdas.1, perdas_defensor := perdas.2 }

/-! ## Mission functions -/

/-- Function `missao_destruir_exercito`: walks the map and returns `false` at the first
territory whose `cor_exercito` is `cor_alvo`, `true` when the walk ends. -/
def missao_destruir_exercito : List Territorio → String → Bool
  | [], _ => true
  | t :: resto, cor_alvo =>
    if t.cor_exercito = cor_alvo then false
    else missao_destruir_exercito resto cor_alvo

/-- The counting loop of `missao_conquistar_territorios`: the value of
`territorios_do_jogador` after walking the whole map. -/
def territorios_do_jogador : List Territorio → String → Int
  | [], _ => 0
  | t :: resto, cor_jogador =>
    if t.cor_exercito = cor_jogador then territorios_do_jogador resto cor_jogador + 1
    else territorios_do_jogador resto cor_jogador

/-- Function `missao_conquistar_territorios`: `return territorios_do_jogador >= alvo;` -/
def missao_conquistar_territorios (mapa : List Territorio) (cor_jogador : String)
    (alvo : Int) : Bool :=
  decide (territorios_do_jogador mapa cor_jogador ≥ alvo)

/-- Function `verificar_vitoria(mapa, total, missao)`, with `cor_jogador = "Azul"`. -/
def verificar_vitoria (mapa : List Territorio) (missao : TipoMissao) : Bool :=
  let cor_jogador := "Azul"
  match missao with
  | TipoMissao.MISSAO_DESTRUIR_VERDE => missao_destruir_exercito mapa "Verde"
  | TipoMissao.MISSAO_CONQUISTAR_3 => missao_conquistar_territorios mapa cor_jogador 5
  | _ => false

/-! ## Initial map -/

/-- Table `const char *nomes[]` of `configurar_territorios_iniciais`. -/
def nomes : List String := ["Alaska", "Groenlandia", "Brasil", "Africa do Sul", "Siberia"]

/-- Table `const char *cores[]` of `configurar_territorios_iniciais`. -/
def cores : List String := ["Azul", "Vermelho", "Azul", "Vermelho", "Verde"]

/-- Table `int tropas[]` of `configurar_territorios_iniciais`. -/
def tropas : List Int := [3, 2, 4, 3, 2]

/-- Function `configurar_territorios_iniciais(mapa, total)` on a freshly allocated map:
entry `i < total` receives `nomes[i]`, `cores[i]`, `tropas[i]`.  `main` calls it
with `total = NUM_TERRITORIOS`; for `total > 5` the source reads past its
tables, which is shown here as empty names and zero troops. -/
def configurar_territorios_iniciais (total : Nat) : List Territorio :=
  (List.range total).map
    (fun i => { nome := nomes.getD i "", cor_exercito := cores.getD i "",
                num_tropas := tropas.getD i 0 })

/-! ## The attack option of the menu -/

/-- One choice of "1 - Atacar" in the menu of `main`: the two numbers read by
`scanf` into `atacante_idx` and `defensor_idx`, and the values that `rand()`
returns during the call of `simular_ataque` it leads to. -/
structure Ataque where
  rand : Nat → Nat
  atacante_idx : Int
  defensor_idx : Int

/-- The `case 1` of the `switch` of `main`, after both numbers were read: when
both lie in `1..NUM_TERRITORIOS` and differ, `simular_ataque(&mapa[atacante_idx - 1],
&mapa[defensor_idx - 1])` is called and writes through the two pointers;
otherwise ("Seleção inválida") the map is left alone.  Returns the map and,
when the call was made, its result.  The map of `main` has `NUM_TERRITORIOS`
entries, so both reads succeed there. -/
def atacar (mapa : List Territorio) (a : Ataque) : List Territorio × Option Resultado :=
  if a.atacante_idx ≥ 1 ∧ a.atacante_idx ≤ (NUM_TERRITORIOS : Int) ∧
      a.defensor_idx ≥ 1 ∧ a.defensor_idx ≤ (NUM_TERRITORIOS : Int) ∧
      a.atacante_idx ≠ a.defensor_idx then
    match mapa[(a.atacante_idx - 1).toNat]?, mapa[(a.defensor_idx - 1).toNat]? with
    | some atacante, some defensor =>
      let r := simular_ataque a.rand atacante defensor
      ((mapa.set (a.atacante_idx - 1).toNat r.atacante).set
        (a.defensor_idx - 1).toNat r.defensor, some r)
    | _, _ => (mapa, none)
  else (mapa, none)

/-- The map after a sequence of attack choices of the menu, in order. -/
def jogar (mapa : List Territorio) : List Ataque → List Territorio
  | [] => mapa
  | a :: resto => jogar (atacar mapa a).1 resto

/-! ## Vocabulary of the statements -/

/-- Whether the attack choice `a` ends in a conquest on the map `mapa`. -/
def conquistou (mapa : List Territorio) (a : Ataque) : Bool :=
  match (atacar mapa a).2 with
  | some r => decide (r.desfecho = Desfecho.conquista)
  | none => false

/-- Whether none of the attack choices of the sequence, played in order from
`mapa`, ends in a conquest. -/
def sem_conquista (mapa : List Territorio) : List Ataque → Bool
  | [] => true
  | a :: resto => !conquistou mapa a && sem_conquista (atacar mapa a).1 resto

/-- Whether the attack choice `a` attacks territory 5 from one of the
territories 1 to 4 that is owned by "Azul" on the map `mapa`. -/
def azul_contra_5 (mapa : List Territorio) (a : Ataque) : Bool :=
  decide (a.defensor_idx = 5) && decide (1 ≤ a.atacante_idx) && decide (a.atacante_idx ≤ 4) &&
    (match mapa[(a.atacante_idx - 1).toNat]? with
     | some t => decide (t.cor_exercito = "Azul")
     | none => false)

/-- Whether every attack choice of the sequence, played in order from `mapa`,
attacks territory 5 from a territory owned by "Azul" at that moment. -/
def todos_azul_contra_5 (mapa : List Territorio) : List Ataque → Bool
  | [] => true
  | a :: resto => azul_contra_5 mapa a && todos_azul_contra_5 (atacar mapa a).1 resto

/-- Sum of `num_tropas` over the map. -/
def total_tropas (mapa : List Territorio) : Int := (mapa.map (fun t => t.num_tropas)).sum

/-- Number of positions `i < k` at which `p i` holds, as an `int`-valued count. -/
def contar (p : Nat → Bool) (k : Nat) : Int := ((List.range k).countP p : Nat)

/-- Number of pairs lost by the attacker when the dice are paired by position:
the positions `i` below `min(attack dice, defense dice)` at which the `i`-th
attacker die rolled is strictly lower than the `i`-th defender die rolled. -/
def pares_perdidos (rand : Nat → Nat) (atacante defensor : Territorio) : Int :=
  contar (fun i => decide (dado_ataque rand i <
      dado_defesa rand (num_dados_ataque atacante) i))
    (min (num_dados_ataque atacante) (num_dados_defesa defensor)).toNat

/-- Number of pairs won by the attacker when the dice are paired by position:
the positions `i` below `min(attack dice, defense dice)` at which the `i`-th
attacker die rolled is greater than or equal to the `i`-th defender die rolled. -/
def pares_vencidos (rand : Nat → Nat) (atacante defensor : Territorio) : Int :=
  contar (fun i => decide (dado_ataque rand i ≥
      dado_defesa rand (num_dados_ataque atacante) i))
    (min (num_dados_ataque atacante) (num_dados_defesa defensor)).toNat

/-- The stream of `rand()` values that returns the entries of `l` in order, then zeros. -/
def rand_de (l : List Nat) : Nat → Nat := fun j => l.getD j 0

/-! ## Auxiliary facts -/

theorem contar_succ (p : Nat → Bool) (k : Nat) :
    contar p (k + 1) = contar p k + (if p k then 1 else 0) := by
  unfold contar
  rw [List.range_succ, List.countP_append]
  by_cases h : p k <;> simp [h]

theorem contar_nonneg (p : Nat → Bool) (k : Nat) : 0 ≤ contar p k := by
  unfold contar
  exact Int.ofNat_nonneg _

theorem contar_congr (p q : Nat → Bool) (k : Nat) (h : ∀ i, i < k → p i = q i) :
    contar p k = contar q k := by
  induction k with
  | zero => rfl
  | succ n ih =>
    rw [contar_succ, contar_succ, ih (fun i hi => h i (Nat.lt_succ_of_lt hi)),
      h n (Nat.lt_succ_self n)]

/-- The attacker counter of the loop counts the pairs the attacker does not win. -/
theorem comparar_fst (da dd : Nat → Int) (n : Nat) :
    (comparar da dd n).1 = contar (fun i => !atacante_vence (da i) (dd i)) n := by
  induction n with
  | zero => rfl
  | succ n ih =>
    rw [contar_succ, ← ih]
    by_cases h : atacante_vence (da n) (dd n) = true <;> simp [comparar, h]

/-- The defender counter of the loop counts the pairs the attacker wins. -/
theorem comparar_snd (da dd : Nat → Int) (n : Nat) :
    (comparar da dd n).2 = contar (fun i => atacante_vence (da i) (dd i)) n := by
  induction n with
  | zero => rfl
  | succ n ih =>
    rw [contar_succ, ← ih]
    by_cases h : atacante_vence (da n) (dd n) = true <;> simp [comparar, h]

/-- Every iteration of the loop charges exactly one of the two sides. -/
theorem comparar_soma (da dd : Nat → Int) (n : Nat) :
    (comparar da dd n).1 + (comparar da dd n).2 = n := by
  induction n with
  | zero => rfl
  | succ n ih =>
    by_cases h : atacante_vence (da n) (dd n) = true <;> simp [comparar, h] <;> omega

/-- The loop reads only the first `n` dice of each side. -/
theorem comparar_congr (da dd da2 dd2 : Nat → Int) (n : Nat)
    (h : ∀ i, i < n → da i = da2 i ∧ dd i = dd2 i) :
    comparar da dd n = comparar da2 dd2 n := by
  induction n with
  | zero => rfl
  | succ n ih =>
    have hn := h n (Nat.lt_succ_self n)
    simp only [comparar]
    rw [ih (fun i hi => h i (Nat.lt_succ_of_lt hi)), hn.1, hn.2]

theorem num_confrontos_eq_min (nda ndd : Int) : num_confrontos nda ndd = min nda ndd := by
  unfold num_confrontos
  split_ifs with h
  · exact (min_eq_left (le_of_lt h)).symm
  · exact (min_eq_right (not_lt.mp h)).symm

/-- The two loss counters of an accepted attack are those of the comparison loop
run for `num_confrontos` iterations. -/
theorem simular_ataque_perdas (rand : Nat → Nat) (atacante defensor : Territorio)
    (ha : 2 ≤ atacante.num_tropas) (hd : defensor.num_tropas ≠ 0) :
    (simular_ataque rand atacante defensor).perdas_atacante =
      (comparar (dado_ataque rand) (dado_defesa rand (num_dados_ataque atacante))
        (num_confrontos (num_dados_ataque atacante) (num_dados_defesa defensor)).toNat).1 ∧
    (simular_ataque rand atacante defensor).perdas_defensor =
      (comparar (dado_ataque rand) (dado_defesa rand (num_dados_ataque atacante))
        (num_confrontos (num_dados_ataque atacante) (num_dados_defesa defensor)).toNat).2 := by
  have h2 : ¬ atacante.num_tropas < 2 := not_lt.mpr ha
  simp only [simular_ataque, if_neg h2, if_neg hd]
  split_ifs <;> exact ⟨rfl, rfl⟩

/-- No `int` computation of `simular_ataque` overflows: when both troop counts
are 32-bit `int` values, the two differences `num_tropas - perdas` and the two
final troop counts are 32-bit `int` values as well. -/
theorem simular_ataque_sem_overflow (rand : Nat → Nat) (atacante defensor : Territorio)
    (ha : -2147483648 ≤ atacante.num_tropas ∧ atacante.num_tropas ≤ 2147483647)
    (hd : -2147483648 ≤ defensor.num_tropas ∧ defensor.num_tropas ≤ 2147483647) :
    (-2147483648 ≤ atacante.num_tropas - (simular_ataque rand atacante defensor).perdas_atacante ∧
      atacante.num_tropas - (simular_ataque rand atacante defensor).perdas_atacante
        ≤ 2147483647) ∧
    (-2147483648 ≤ defensor.num_tropas - (simular_ataque rand atacante defensor).perdas_defensor ∧
      defensor.num_tropas - (simular_ataque rand atacante defensor).perdas_defensor
        ≤ 2147483647) ∧
    (-2147483648 ≤ (simular_ataque rand atacante defensor).atacante.num_tropas ∧
      (simular_ataque rand atacante defensor).atacante.num_tropas ≤ 2147483647) ∧
    (-2147483648 ≤ (simular_ataque rand atacante defensor).defensor.num_tropas ∧
      (simular_ataque rand atacante defensor).defensor.num_tropas ≤ 2147483647) := by
  by_cases h2 : atacante.num_tropas < 2
  · simp [simular_ataque, h2, ha, hd]
  · by_cases hd0 : defensor.num_tropas = 0
    · simp [simular_ataque, h2, hd0, ha]
    · have hsoma := comparar_soma (dado_ataque rand)
        (dado_defesa rand (num_dados_ataque atacante))
        (num_confrontos (num_dados_ataque atacante) (num_dados_defesa defensor)).toNat
      have h1 := comparar_fst (dado_ataque rand)
        (dado_defesa rand (num_dados_ataque atacante))
        (num_confrontos (num_dados_ataque atacante) (num_dados_defesa defensor)).toNat
      have h3 := comparar_snd (dado_ataque rand)
        (dado_defesa rand (num_dados_ataque atacante))
        (num_confrontos (num_dados_ataque atacante) (num_dados_defesa defensor)).toNat
      have n1 := contar_nonneg (fun i => !atacante_vence (dado_ataque rand i)
          (dado_defesa rand (num_dados_ataque atacante) i))
        (num_confrontos (num_dados_ataque atacante) (num_dados_defesa defensor)).toNat
      have n2 := contar_nonneg (fun i => atacante_vence (dado_ataque rand i)
          (dado_defesa rand (num_dados_ataque atacante) i))
        (num_confrontos (num_dados_ataque atacante) (num_dados_defesa defensor)).toNat
      rw [← h1] at n1
      rw [← h3] at n2
      have hk : ((num_confrontos (num_dados_ataque atacante)
          (num_dados_defesa defensor)).toNat : Int) ≤ 2 ∧
          ((num_confrontos (num_dados_ataque atacante)
            (num_dados_defesa defensor)).toNat : Int) ≤ max 0 defensor.num_tropas := by
        unfold num_confrontos num_dados_ataque num_dados_defesa DADOS_ATAQUE DADOS_DEFESA
        split_ifs <;> omega
      simp only [simular_ataque, if_neg h2, if_neg hd0]
      split_ifs <;> simp <;> omega

/-! ## Tie-break rule of the comparison loop -/

/-- C1 (as amended): in every accepted attack (attacker troops at least 2,
defender troops at least 1) and for every stream of `rand()` values, with
`k = min(attack dice, defense dice)` compared pairs, the attacker loses one
troop for each pair whose attacker die is strictly lower than the defender
die, and the defender loses one troop for each pair whose attacker die is
greater than or equal to the defender die: a tie is charged to the defender. -/
theorem simular_ataque_perdas_por_par (rand : Nat → Nat) (atacante defensor : Territorio)
    (ha : 2 ≤ atacante.num_tropas) (hd : 1 ≤ defensor.num_tropas) :
    (simular_ataque rand atacante defensor).perdas_atacante =
      contar (fun i => decide (dado_ataque rand i <
          dado_defesa rand (num_dados_ataque atacante) i))
        (min (num_dados_ataque atacante) (num_dados_defesa defensor)).toNat ∧
    (simular_ataque rand atacante defensor).perdas_defensor =
      contar (fun i => decide (dado_ataque rand i ≥
          dado_defesa rand (num_dados_ataque atacante) i))
        (min (num_dados_ataque atacante) (num_dados_defesa defensor)).toNat := by
  have hd0 : defensor.num_tropas ≠ 0 := by omega
  obtain ⟨h1, h2⟩ := simular_ataque_perdas rand atacante defensor ha hd0
  rw [h1, h2, comparar_fst, comparar_snd, num_confrontos_eq_min]
  refine ⟨contar_congr _ _ _ (fun i _ => ?_), contar_congr _ _ _ (fun i _ => ?_)⟩
  · by_cases h : dado_ataque rand i < dado_defesa rand (num_dados_ataque atacante) i
    · simp [atacante_vence, h]
    · simp [atacante_vence, h, not_lt.mp h]
  · simp [atacante_vence]

/-- C1 (witness): a 4-troop attacker against a 2-troop defender with dice
`[3, 2, 5]` against `[3, 4]`: the tied first pair costs the defender a troop and
the lower second pair costs the attacker a troop. -/
theorem simular_ataque_perdas_por_par_witness :
    (2 : Int) ≤ (Territorio.mk "Brasil" "Azul" 4).num_tropas ∧
    (1 : Int) ≤ (Territorio.mk "Siberia" "Verde" 2).num_tropas ∧
    (simular_ataque (rand_de [2, 1, 4, 2, 3]) (Territorio.mk "Brasil" "Azul" 4)
        (Territorio.mk "Siberia" "Verde" 2)).perdas_atacante = 1 ∧
    (simular_ataque (rand_de [2, 1, 4, 2, 3]) (Territorio.mk "Brasil" "Azul" 4)
        (Territorio.mk "Siberia" "Verde" 2)).perdas_defensor = 1 := by
  have h := simular_ataque_perdas_por_par (rand_de [2, 1, 4, 2, 3])
    (Territorio.mk "Brasil" "Azul" 4) (Territorio.mk "Siberia" "Verde" 2)
    (by decide) (by decide)
  refine ⟨by decide, by decide, ?_, ?_⟩
  · rw [h.1]; decide
  · rw [h.2]; decide

/-- C1 (counterexample to the rule as the specification words it): a 2-troop
attacker against a 1-troop defender, both rolling a 1.  The attack is
accepted and one pair is compared; the rule "tie or lower costs the
attacker" would give `perdas_atacante = 1` and `perdas_defensor = 0`, but
the code gives `perdas_atacante = 0` and `perdas_defensor = 1`. -/
theorem simular_ataque_empate_contra_spec :
    (2 : Int) ≤ (Territorio.mk "Alaska" "Azul" 2).num_tropas ∧
    (1 : Int) ≤ (Territorio.mk "Siberia" "Verde" 1).num_tropas ∧
    dado_ataque (fun _ => 0) 0 = 1 ∧
    dado_defesa (fun _ => 0) (num_dados_ataque (Territorio.mk "Alaska" "Azul" 2)) 0 = 1 ∧
    (simular_ataque (fun _ => 0) (Territorio.mk "Alaska" "Azul" 2)
        (Territorio.mk "Siberia" "Verde" 1)).perdas_atacante = 0 ∧
    (simular_ataque (fun _ => 0) (Territorio.mk "Alaska" "Azul" 2)
        (Territorio.mk "Siberia" "Verde" 1)).perdas_defensor = 1 ∧
    ¬ ((simular_ataque (fun _ => 0) (Territorio.mk "Alaska" "Azul" 2)
          (Territorio.mk "Siberia" "Verde" 1)).perdas_atacante =
        contar (fun i => decide (dado_ataque (fun _ => 0) i ≤
            dado_defesa (fun _ => 0) (num_dados_ataque (Territorio.mk "Alaska" "Azul" 2)) i))
          (min (num_dados_ataque (Territorio.mk "Alaska" "Azul" 2))
            (num_dados_defesa (Territorio.mk "Siberia" "Verde" 1))).toNat ∧
      (simular_ataque (fun _ => 0) (Territorio.mk "Alaska" "Azul" 2)
          (Territorio.mk "Siberia" "Verde" 1)).perdas_defensor =
        contar (fun i => decide (dado_ataque (fun _ => 0) i >
            dado_defesa (fun _ => 0) (num_dados_ataque (Territorio.mk "Alaska" "Azul" 2)) i))
          (min (num_dados_ataque (Territorio.mk "Alaska" "Azul" 2))
            (num_dados_defesa (Territorio.mk "Siberia" "Verde" 1))).toNat) := by
  decide

/-! ## Conquest, rejections and dice counts -/

/-- C2: in every accepted attack (attacker troops at least 2, defender troops
at least 1, two distinct territories) and for every stream of `rand()` values,
if the defender's troop count minus its losses is 0 (or below, which the
floor turns into 0), the call ends in a conquest: the defender carries the
attacker's pre-call `cor_exercito`, holds exactly 1 troop, keeps its name, and
the attacker holds its post-loss count, floored at 1, minus exactly 1. -/
theorem simular_ataque_conquista (rand : Nat → Nat) (atacante defensor : Territorio)
    (ha : 2 ≤ atacante.num_tropas) (hd : 1 ≤ defensor.num_tropas)
    (hz : defensor.num_tropas - (simular_ataque rand atacante defensor).perdas_defensor ≤ 0) :
    (simular_ataque rand atacante defensor).desfecho = Desfecho.conquista ∧
    (simular_ataque rand atacante defensor).defensor.cor_exercito = atacante.cor_exercito ∧
    (simular_ataque rand atacante defensor).defensor.num_tropas = 1 ∧
    (simular_ataque rand atacante defensor).defensor.nome = defensor.nome ∧
    (simular_ataque rand atacante defensor).atacante.num_tropas =
      max 1 (atacante.num_tropas -
        (simular_ataque rand atacante defensor).perdas_atacante) - 1 := by
  have hd0 : defensor.num_tropas ≠ 0 := by omega
  have h2 : ¬ atacante.num_tropas < 2 := not_lt.mpr ha
  rw [(simular_ataque_perdas rand atacante defensor ha hd0).2] at hz
  rw [(simular_ataque_perdas rand atacante defensor ha hd0).1]
  simp only [simular_ataque, if_neg h2, if_neg hd0]
  split_ifs <;> simp <;> omega

/-- C2 (witness): a 2-troop Azul attacker and a 1-troop Verde defender that
both roll a 1: the defender loses its only troop and is conquered. -/
theorem simular_ataque_conquista_witness :
    (simular_ataque (fun _ => 0) (Territorio.mk "Alaska" "Azul" 2)
        (Territorio.mk "Siberia" "Verde" 1)).desfecho = Desfecho.conquista ∧
    (simular_ataque (fun _ => 0) (Territorio.mk "Alaska" "Azul" 2)
        (Territorio.mk "Siberia" "Verde" 1)).defensor.cor_exercito = "Azul" ∧
    (simular_ataque (fun _ => 0) (Territorio.mk "Alaska" "Azul" 2)
        (Territorio.mk "Siberia" "Verde" 1)).defensor.num_tropas = 1 ∧
    (simular_ataque (fun _ => 0) (Territorio.mk "Alaska" "Azul" 2)
        (Territorio.mk "Siberia" "Verde" 1)).defensor.nome = "Siberia" ∧
    (simular_ataque (fun _ => 0) (Territorio.mk "Alaska" "Azul" 2)
        (Territorio.mk "Siberia" "Verde" 1)).atacante.num_tropas =
      max 1 ((2 : Int) - (simular_ataque (fun _ => 0) (Territorio.mk "Alaska" "Azul" 2)
        (Territorio.mk "Siberia" "Verde" 1)).perdas_atacante) - 1 :=
  simular_ataque_conquista (fun _ => 0) (Territorio.mk "Alaska" "Azul" 2)
    (Territorio.mk "Siberia" "Verde" 1) (by decide) (by decide) (by decide)

/-- C3: for every attacker with fewer than 2 troops, every defender and every
stream of `rand()` values, `simular_ataque` takes the "needs at least 2 troops"
exit, rolls no die, and returns both territories (name, owner, troop count)
exactly as they were. -/
theorem simular_ataque_tropas_insuficientes (rand : Nat → Nat)
    (atacante defensor : Territorio) (ha : atacante.num_tropas < 2) :
    (simular_ataque rand atacante defensor).desfecho = Desfecho.tropas_insuficientes ∧
    (simular_ataque rand atacante defensor).atacante = atacante ∧
    (simular_ataque rand atacante defensor).defensor = defensor ∧
    (simular_ataque rand atacante defensor).dados_rolados = 0 := by
  simp [simular_ataque, ha]

/-- C3 (witness): a 1-troop attacker against a 2-troop defender. -/
theorem simular_ataque_tropas_insuficientes_witness :
    (simular_ataque (rand_de [5, 0]) (Territorio.mk "Alaska" "Azul" 1)
        (Territorio.mk "Siberia" "Verde" 2)).desfecho = Desfecho.tropas_insuficientes ∧
    (simular_ataque (rand_de [5, 0]) (Territorio.mk "Alaska" "Azul" 1)
        (Territorio.mk "Siberia" "Verde" 2)).atacante = Territorio.mk "Alaska" "Azul" 1 ∧
    (simular_ataque (rand_de [5, 0]) (Territorio.mk "Alaska" "Azul" 1)
        (Territorio.mk "Siberia" "Verde" 2)).defensor = Territorio.mk "Siberia" "Verde" 2 ∧
    (simular_ataque (rand_de [5, 0]) (Territorio.mk "Alaska" "Azul" 1)
        (Territorio.mk "Siberia" "Verde" 2)).dados_rolados = 0 :=
  simular_ataque_tropas_insuficientes (rand_de [5, 0]) (Territorio.mk "Alaska" "Azul" 1)
    (Territorio.mk "Siberia" "Verde" 2) (by decide)

/-- C4: for every defender with 0 troops, every attacker and every stream of
`rand()` values, `simular_ataque` returns both territories exactly as they
were, rolls no die and does not end in a conquest; and when the attacker has
at least 2 troops the exit taken is the "defender already without troops" one. -/
theorem simular_ataque_defensor_sem_tropas (rand : Nat → Nat)
    (atacante defensor : Territorio) (hd : defensor.num_tropas = 0) :
    (simular_ataque rand atacante defensor).atacante = atacante ∧
    (simular_ataque rand atacante defensor).defensor = defensor ∧
    (simular_ataque rand atacante defensor).dados_rolados = 0 ∧
    (simular_ataque rand atacante defensor).desfecho ≠ Desfecho.conquista ∧
    (2 ≤ atacante.num_tropas →
      (simular_ataque rand atacante defensor).desfecho = Desfecho.defensor_sem_tropas) := by
  by_cases ha : atacante.num_tropas < 2
  · have h2 : ¬ 2 ≤ atacante.num_tropas := not_le.mpr ha
    simp [simular_ataque, ha, h2]
  · simp [simular_ataque, ha, hd]

/-- C4 (witness): a 3-troop attacker against a defender with 0 troops. -/
theorem simular_ataque_defensor_sem_tropas_witness :
    (simular_ataque (rand_de [5, 5, 0]) (Territorio.mk "Alaska" "Azul" 3)
        (Territorio.mk "Siberia" "Verde" 0)).atacante = Territorio.mk "Alaska" "Azul" 3 ∧
    (simular_ataque (rand_de [5, 5, 0]) (Territorio.mk "Alaska" "Azul" 3)
        (Territorio.mk "Siberia" "Verde" 0)).defensor = Territorio.mk "Siberia" "Verde" 0 ∧
    (simular_ataque (rand_de [5, 5, 0]) (Territorio.mk "Alaska" "Azul" 3)
        (Territorio.mk "Siberia" "Verde" 0)).desfecho = Desfecho.defensor_sem_tropas :=
  have h := simular_ataque_defensor_sem_tropas (rand_de [5, 5, 0])
    (Territorio.mk "Alaska" "Azul" 3) (Territorio.mk "Siberia" "Verde" 0) rfl
  ⟨h.1, h.2.1, h.2.2.2.2 (by decide)⟩

/-- C5: an attacker with `a ≥ 2` troops gets `min (a - 1) 3` attack dice, a
defender with `d ≥ 0` troops gets `min d 2` defense dice; so attack dice lie
in `1..3` and defense dice in `0..2`, within the arrays of `DADOS_ATAQUE = 3`
and `DADOS_DEFESA = 2` entries.  Troops 2, 3, 4, 5, 10 give 1, 2, 3, 3, 3 attack
dice and troops 0, 1, 2, 5 give 0, 1, 2, 2 defense dice, whatever the name and
owner; and an accepted attack rolls exactly that many dice. -/
theorem num_dados_politica (rand : Nat → Nat) (atacante defensor : Territorio)
    (nome cor : String) :
    (2 ≤ atacante.num_tropas →
      num_dados_ataque atacante = min (atacante.num_tropas - 1) 3 ∧
      1 ≤ num_dados_ataque atacante ∧ num_dados_ataque atacante ≤ DADOS_ATAQUE) ∧
    (0 ≤ defensor.num_tropas →
      num_dados_defesa defensor = min defensor.num_tropas 2 ∧
      0 ≤ num_dados_defesa defensor ∧ num_dados_defesa defensor ≤ DADOS_DEFESA) ∧
    (num_dados_ataque (Territorio.mk nome cor 2) = 1 ∧
      num_dados_ataque (Territorio.mk nome cor 3) = 2 ∧
      num_dados_ataque (Territorio.mk nome cor 4) = 3 ∧
      num_dados_ataque (Territorio.mk nome cor 5) = 3 ∧
      num_dados_ataque (Territorio.mk nome cor 10) = 3) ∧
    (num_dados_defesa (Territorio.mk nome cor 0) = 0 ∧
      num_dados_defesa (Territorio.mk nome cor 1) = 1 ∧
      num_dados_defesa (Territorio.mk nome cor 2) = 2 ∧
      num_dados_defesa (Territorio.mk nome cor 5) = 2) ∧
    (2 ≤ atacante.num_tropas → 1 ≤ defensor.num_tropas →
      ((simular_ataque rand atacante defensor).dados_rolados : Int) =
        min (atacante.num_tropas - 1) 3 + min defensor.num_tropas 2) := by
  refine ⟨fun ha => ?_, fun hd => ?_, ?_, ?_, fun ha hd => ?_⟩
  · unfold num_dados_ataque DADOS_ATAQUE
    split_ifs with h
    · exact ⟨(min_eq_left (le_of_lt h)).symm, by omega, by omega⟩
    · exact ⟨(min_eq_right (not_lt.mp h)).symm, by omega, by omega⟩
  · unfold num_dados_defesa DADOS_DEFESA
    split_ifs with h
    · exact ⟨(min_eq_left (le_of_lt h)).symm, by omega, by omega⟩
    · exact ⟨(min_eq_right (not_lt.mp h)).symm, by omega, by omega⟩
  · simp [num_dados_ataque, DADOS_ATAQUE]
  · simp [num_dados_defesa, DADOS_DEFESA]
  · have h2 : ¬ atacante.num_tropas < 2 := not_lt.mpr ha
    have hd0 : defensor.num_tropas ≠ 0 := by omega
    have e : (simular_ataque rand atacante defensor).dados_rolados =
        (num_dados_ataque atacante).toNat + (num_dados_defesa defensor).toNat := by
      simp only [simular_ataque, if_neg h2, if_neg hd0]
      split_ifs <;> rfl
    rw [e]
    unfold num_dados_ataque num_dados_defesa DADOS_ATAQUE DADOS_DEFESA
    split_ifs <;> omega

/-- C5 (witness): a 10-troop attacker against a 5-troop defender rolls 3 and 2 dice. -/
theorem num_dados_politica_witness :
    (num_dados_ataque (Territorio.mk "Brasil" "Azul" 10) = min ((10 : Int) - 1) 3 ∧
      1 ≤ num_dados_ataque (Territorio.mk "Brasil" "Azul" 10) ∧
      num_dados_ataque (Territorio.mk "Brasil" "Azul" 10) ≤ DADOS_ATAQUE) ∧
    (num_dados_defesa (Territorio.mk "Siberia" "Verde" 5) = min (5 : Int) 2 ∧
      0 ≤ num_dados_defesa (Territorio.mk "Siberia" "Verde" 5) ∧
      num_dados_defesa (Territorio.mk "Siberia" "Verde" 5) ≤ DADOS_DEFESA) ∧
    ((simular_ataque (fun _ => 0) (Territorio.mk "Brasil" "Azul" 10)
        (Territorio.mk "Siberia" "Verde" 5)).dados_rolados : Int) =
      min ((10 : Int) - 1) 3 + min (5 : Int) 2 :=
  have h := num_dados_politica (fun _ => 0) (Territorio.mk "Brasil" "Azul" 10)
    (Territorio.mk "Siberia" "Verde" 5) "" ""
  ⟨h.1 (by decide), h.2.1 (by decide), h.2.2.2.2 (by decide) (by decide)⟩

/-! ## Troop-count bounds -/

/-- C7: for every call of `simular_ataque` on two distinct territories whose
troop counts are at least 0, and every stream of `rand()` values, both troop
counts are at least 0 after the call; and when the call does not end in a
conquest, a territory that had at least 1 troop before still has at least 1. -/
theorem simular_ataque_tropas_limites (rand : Nat → Nat) (atacante defensor : Territorio)
    (ha : 0 ≤ atacante.num_tropas) (hd : 0 ≤ defensor.num_tropas) :
    0 ≤ (simular_ataque rand atacante defensor).atacante.num_tropas ∧
    0 ≤ (simular_ataque rand atacante defensor).defensor.num_tropas ∧
    ((simular_ataque rand atacante defensor).desfecho ≠ Desfecho.conquista →
      (1 ≤ atacante.num_tropas →
        1 ≤ (simular_ataque rand atacante defensor).atacante.num_tropas) ∧
      (1 ≤ defensor.num_tropas →
        1 ≤ (simular_ataque rand atacante defensor).defensor.num_tropas)) := by
  by_cases h2 : atacante.num_tropas < 2
  · simp [simular_ataque, h2, ha, hd]
  · by_cases hd0 : defensor.num_tropas = 0
    · simp [simular_ataque, h2, hd0, ha]
    · simp only [simular_ataque, if_neg h2, if_neg hd0]
      split_ifs <;> simp <;> omega

/-- C7 (witness): a 3-troop attacker and a 2-troop defender, attacker dice
`[1, 1]` against defender dice `[6, 6]`: the attacker drops to 1 troop and the
defender keeps its 2. -/
theorem simular_ataque_tropas_limites_witness :
    (0 : Int) ≤ (simular_ataque (rand_de [0, 0, 5, 5]) (Territorio.mk "Alaska" "Azul" 3)
      (Territorio.mk "Siberia" "Verde" 2)).atacante.num_tropas ∧
    (0 : Int) ≤ (simular_ataque (rand_de [0, 0, 5, 5]) (Territorio.mk "Alaska" "Azul" 3)
      (Territorio.mk "Siberia" "Verde" 2)).defensor.num_tropas ∧
    (1 : Int) ≤ (simular_ataque (rand_de [0, 0, 5, 5]) (Territorio.mk "Alaska" "Azul" 3)
      (Territorio.mk "Siberia" "Verde" 2)).atacante.num_tropas ∧
    (1 : Int) ≤ (simular_ataque (rand_de [0, 0, 5, 5]) (Territorio.mk "Alaska" "Azul" 3)
      (Territorio.mk "Siberia" "Verde" 2)).defensor.num_tropas :=
  have h := simular_ataque_tropas_limites (rand_de [0, 0, 5, 5])
    (Territorio.mk "Alaska" "Azul" 3) (Territorio.mk "Siberia" "Verde" 2)
    (by decide) (by decide)
  ⟨h.1, h.2.1, (h.2.2 (by decide)).1 (by decide), (h.2.2 (by decide)).2 (by decide)⟩

/-! ## Mission evaluation -/

theorem missao_destruir_exercito_iff (mapa : List Territorio) (cor_alvo : String) :
    missao_destruir_exercito mapa cor_alvo = true ↔
      ∀ t ∈ mapa, t.cor_exercito ≠ cor_alvo := by
  induction mapa with
  | nil => simp [missao_destruir_exercito]
  | cons t resto ih =>
    by_cases h : t.cor_exercito = cor_alvo
    · simp [missao_destruir_exercito, h]
    · simp [missao_destruir_exercito, h, ih]

theorem territorios_do_jogador_eq_countP (mapa : List Territorio) (cor_jogador : String) :
    territorios_do_jogador mapa cor_jogador =
      ((mapa.countP (fun t => decide (t.cor_exercito = cor_jogador)) : Nat) : Int) := by
  induction mapa with
  | nil => rfl
  | cons t resto ih =>
    by_cases h : t.cor_exercito = cor_jogador
    · simp [territorios_do_jogador, h, ih]
    · simp [territorios_do_jogador, h, ih]

/-- The counter of `missao_conquistar_territorios` never exceeds the map size. -/
theorem territorios_do_jogador_le_length (mapa : List Territorio) (cor_jogador : String) :
    territorios_do_jogador mapa cor_jogador ≤ (mapa.length : Int) := by
  rw [territorios_do_jogador_eq_countP]
  exact Int.ofNat_le.mpr (List.countP_le_length _)

theorem verificar_vitoria_conquistar_iff (mapa : List Territorio) :
    verificar_vitoria mapa TipoMissao.MISSAO_CONQUISTAR_3 = true ↔
      5 ≤ mapa.countP (fun t => decide (t.cor_exercito = "Azul")) := by
  simp only [verificar_vitoria, missao_conquistar_territorios, decide_eq_true_eq,
    territorios_do_jogador_eq_countP]
  omega

/-- C8: for every map, of any length, and every target label,
`missao_destruir_exercito` returns true iff no territory of the map has
`cor_exercito` equal to the target; and `verificar_vitoria` with
`MISSAO_DESTRUIR_VERDE` returns true iff no territory is owned by "Verde", in
particular on the empty map and on any map where Verde never appears. -/
theorem missao_destruir_exercito_correta (mapa : List Territorio) (cor_alvo : String) :
    (missao_destruir_exercito mapa cor_alvo = true ↔
      ∀ t ∈ mapa, t.cor_exercito ≠ cor_alvo) ∧
    (verificar_vitoria mapa TipoMissao.MISSAO_DESTRUIR_VERDE = true ↔
      ∀ t ∈ mapa, t.cor_exercito ≠ "Verde") ∧
    missao_destruir_exercito [] cor_alvo = true ∧
    verificar_vitoria [] TipoMissao.MISSAO_DESTRUIR_VERDE = true :=
  ⟨missao_destruir_exercito_iff mapa cor_alvo,
   missao_destruir_exercito_iff mapa "Verde", rfl, rfl⟩

/-- C9: for every map of exactly 5 territories, `verificar_vitoria` with
`MISSAO_CONQUISTAR_3` returns true iff all 5 territories have owner "Azul",
and false as soon as one of the 5 has another owner; and for every map,
player label and target `n`, `missao_conquistar_territorios` returns true iff
the number of territories owned by the player is at least `n`. -/
theorem missao_conquistar_territorios_correta (mapa : List Territorio)
    (cor_jogador : String) (alvo : Int) :
    (mapa.length = 5 →
      (verificar_vitoria mapa TipoMissao.MISSAO_CONQUISTAR_3 = true ↔
        ∀ t ∈ mapa, t.cor_exercito = "Azul") ∧
      ((∃ t ∈ mapa, t.cor_exercito ≠ "Azul") →
        verificar_vitoria mapa TipoMissao.MISSAO_CONQUISTAR_3 = false)) ∧
    (missao_conquistar_territorios mapa cor_jogador alvo = true ↔
      alvo ≤ ((mapa.countP (fun t => decide (t.cor_exercito = cor_jogador)) : Nat) : Int)) := by
  have key : mapa.length = 5 →
      (verificar_vitoria mapa TipoMissao.MISSAO_CONQUISTAR_3 = true ↔
        ∀ t ∈ mapa, t.cor_exercito = "Azul") := by
    intro h5
    rw [verificar_vitoria_conquistar_iff]
    have hle := List.countP_le_length (fun t => decide (t.cor_exercito = "Azul")) (l := mapa)
    constructor
    · intro h t ht
      have heq : mapa.countP (fun t => decide (t.cor_exercito = "Azul")) = mapa.length := by
        omega
      have := List.countP_eq_length.mp heq t ht
      simpa using this
    · intro h
      have heq : mapa.countP (fun t => decide (t.cor_exercito = "Azul")) = mapa.length :=
        List.countP_eq_length.mpr (fun t ht => by simpa using h t ht)
      omega
  refine ⟨fun h5 => ⟨key h5, ?_⟩, ?_⟩
  · rintro ⟨t, ht, hne⟩
    cases hv : verificar_vitoria mapa TipoMissao.MISSAO_CONQUISTAR_3
    · rfl
    · exact absurd ((key h5).mp hv t ht) hne
  · simp [missao_conquistar_territorios, territorios_do_jogador_eq_countP]

/-- C8 (witness): once Siberia has been taken by Azul no territory is Verde
and the mission holds, while on the initial map it does not. -/
theorem missao_destruir_exercito_correta_witness :
    missao_destruir_exercito
      [Territorio.mk "Alaska" "Azul" 1, Territorio.mk "Groenlandia" "Vermelho" 2,
       Territorio.mk "Siberia" "Azul" 1] "Verde" = true ∧
    verificar_vitoria (configurar_territorios_iniciais NUM_TERRITORIOS)
      TipoMissao.MISSAO_DESTRUIR_VERDE = false :=
  ⟨(missao_destruir_exercito_correta
      [Territorio.mk "Alaska" "Azul" 1, Territorio.mk "Groenlandia" "Vermelho" 2,
       Territorio.mk "Siberia" "Azul" 1] "Verde").1.mpr (by decide),
   Bool.eq_false_iff.mpr (fun hv =>
     (missao_destruir_exercito_correta
        (configurar_territorios_iniciais NUM_TERRITORIOS) "Verde").2.1.mp hv
       (Territorio.mk "Siberia" "Verde" 2) (by decide) rfl)⟩

/-- C9 (witness): on the initial 5-territory map the mission does not hold
(Groenlandia is Vermelho); on a 5-territory map that is all Azul it does. -/
theorem missao_conquistar_territorios_correta_witness :
    verificar_vitoria (configurar_territorios_iniciais NUM_TERRITORIOS)
      TipoMissao.MISSAO_CONQUISTAR_3 = false ∧
    verificar_vitoria
      [Territorio.mk "Alaska" "Azul" 1, Territorio.mk "Groenlandia" "Azul" 1,
       Territorio.mk "Brasil" "Azul" 2, Territorio.mk "Africa do Sul" "Azul" 1,
       Territorio.mk "Siberia" "Azul" 1] TipoMissao.MISSAO_CONQUISTAR_3 = true :=
  ⟨((missao_conquistar_territorios_correta
      (configurar_territorios_iniciais NUM_TERRITORIOS) "Azul" 5).1 rfl).2
      ⟨Territorio.mk "Groenlandia" "Vermelho" 2, by decide, by decide⟩,
   ((missao_conquistar_territorios_correta
      [Territorio.mk "Alaska" "Azul" 1, Territorio.mk "Groenlandia" "Azul" 1,
       Territorio.mk "Brasil" "Azul" 2, Territorio.mk "Africa do Sul" "Azul" 1,
       Territorio.mk "Siberia" "Azul" 1] "Azul" 5).1 rfl).1.mpr (by decide)⟩

/-- C10 (as amended): the target of `MISSAO_CONQUISTAR_3` is the constant 5,
whatever the size of the map passed: `verificar_vitoria` returns true iff at
least 5 territories are owned by "Azul".  On a map of exactly 5 territories
this is the same as owning at least `total` territories, the entire map; on a
map of fewer than 5 territories the result is always false. -/
theorem verificar_vitoria_alvo_fixo (mapa : List Territorio) :
    (verificar_vitoria mapa TipoMissao.MISSAO_CONQUISTAR_3 = true ↔
      5 ≤ mapa.countP (fun t => decide (t.cor_exercito = "Azul"))) ∧
    (mapa.length = 5 →
      (verificar_vitoria mapa TipoMissao.MISSAO_CONQUISTAR_3 = true ↔
        mapa.length ≤ mapa.countP (fun t => decide (t.cor_exercito = "Azul")))) ∧
    (mapa.length < 5 → verificar_vitoria mapa TipoMissao.MISSAO_CONQUISTAR_3 = false) := by
  refine ⟨verificar_vitoria_conquistar_iff mapa, fun h5 => ?_, fun hlt => ?_⟩
  · rw [verificar_vitoria_conquistar_iff, h5]
  · have hle := List.countP_le_length (fun t => decide (t.cor_exercito = "Azul")) (l := mapa)
    cases hv : verificar_vitoria mapa TipoMissao.MISSAO_CONQUISTAR_3
    · rfl
    · have := (verificar_vitoria_conquistar_iff mapa).mp hv
      omega

/-- C10 (witness): the initial map has 5 territories, 2 of them Azul, and the
mission does not hold; a 2-territory map never satisfies it. -/
theorem verificar_vitoria_alvo_fixo_witness :
    (verificar_vitoria (configurar_territorios_iniciais NUM_TERRITORIOS)
        TipoMissao.MISSAO_CONQUISTAR_3 = true ↔
      (configurar_territorios_iniciais NUM_TERRITORIOS).length ≤
        (configurar_territorios_iniciais NUM_TERRITORIOS).countP
          (fun t => decide (t.cor_exercito = "Azul"))) ∧
    verificar_vitoria [Territorio.mk "Alaska" "Azul" 3, Territorio.mk "Brasil" "Azul" 4]
      TipoMissao.MISSAO_CONQUISTAR_3 = false :=
  ⟨(verificar_vitoria_alvo_fixo (configurar_territorios_iniciais NUM_TERRITORIOS)).2.1 rfl,
   (verificar_vitoria_alvo_fixo
      [Territorio.mk "Alaska" "Azul" 3, Territorio.mk "Brasil" "Azul" 4]).2.2 (by decide)⟩

/-- C10 (counterexample to a target derived from the map size): on the
1-territory map whose only territory is Azul the player owns `total = 1`
territories, the entire map, yet `verificar_vitoria` returns false; and on a
6-territory map with 5 Azul territories and 1 Verde the player owns fewer than
`total = 6` territories, yet `verificar_vitoria` returns true. -/
theorem verificar_vitoria_alvo_nao_derivado :
    ¬ (verificar_vitoria [Territorio.mk "Alaska" "Azul" 3]
          TipoMissao.MISSAO_CONQUISTAR_3 = true ↔
        [Territorio.mk "Alaska" "Azul" 3].length ≤
          [Territorio.mk "Alaska" "Azul" 3].countP
            (fun t => decide (t.cor_exercito = "Azul"))) ∧
    ¬ (verificar_vitoria
          [Territorio.mk "Alaska" "Azul" 1, Territorio.mk "Groenlandia" "Azul" 1,
           Territorio.mk "Brasil" "Azul" 1, Territorio.mk "Africa do Sul" "Azul" 1,
           Territorio.mk "Siberia" "Azul" 1, Territorio.mk "Japao" "Verde" 1]
          TipoMissao.MISSAO_CONQUISTAR_3 = true ↔
        [Territorio.mk "Alaska" "Azul" 1, Territorio.mk "Groenlandia" "Azul" 1,
         Territorio.mk "Brasil" "Azul" 1, Territorio.mk "Africa do Sul" "Azul" 1,
         Territorio.mk "Siberia" "Azul" 1, Territorio.mk "Japao" "Verde" 1].length ≤
          [Territorio.mk "Alaska" "Azul" 1, Territorio.mk "Groenlandia" "Azul" 1,
           Territorio.mk "Brasil" "Azul" 1, Territorio.mk "Africa do Sul" "Azul" 1,
           Territorio.mk "Siberia" "Azul" 1, Territorio.mk "Japao" "Verde" 1].countP
            (fun t => decide (t.cor_exercito = "Azul"))) := by
  decide

/-! ## Dice -/

/-- C12: for every value `r ≥ 0` returned by `rand()`, the result `(r % 6) + 1`
of `rolar_dado` lies in `[1, 6]`, and each of the values 1 to 6 is the result
for some `r`. -/
theorem rolar_dado_intervalo (r : Nat) (v : Int) :
    (1 ≤ rolar_dado r ∧ rolar_dado r ≤ 6) ∧
    (1 ≤ v → v ≤ 6 → ∃ r0 : Nat, rolar_dado r0 = v) := by
  refine ⟨?_, fun h1 h6 => ⟨(v - 1).toNat, ?_⟩⟩
  · unfold rolar_dado
    omega
  · unfold rolar_dado
    omega

/-- C12 (witness): the value 4 is rolled for some `rand()` result, and
`rand() = 2147483647` rolls a value in `[1, 6]`. -/
theorem rolar_dado_intervalo_witness :
    (1 ≤ rolar_dado 2147483647 ∧ rolar_dado 2147483647 ≤ 6) ∧
    ∃ r0 : Nat, rolar_dado r0 = 4 :=
  ⟨(rolar_dado_intervalo 2147483647 4).1,
   (rolar_dado_intervalo 2147483647 4).2 (by decide) (by decide)⟩

theorem contar_ge_parte (x y : Nat → Int) (k : Nat) :
    contar (fun i => decide (x i ≥ y i)) k =
      contar (fun i => decide (x i > y i)) k + contar (fun i => decide (x i = y i)) k := by
  induction k with
  | zero => rfl
  | succ n ih =>
    rw [contar_succ, contar_succ, contar_succ, ih]
    rcases lt_trichotomy (x n) (y n) with h | h | h
    · have h1 : ¬ x n ≥ y n := not_le.mpr h
      have h2 : ¬ x n > y n := by omega
      have h3 : ¬ x n = y n := by omega
      simp [h1, h2, h3]
    · simp [h]
      omega
    · have h1 : x n ≥ y n := le_of_lt h
      have h3 : ¬ x n = y n := by omega
      simp [h1, h, h3]
      omega

/-- C13: for all integers `a` and `d`, `atacante_vence a d` is true iff
`a ≥ d`; so a tied pair is won by the attacker ("Empates favorecem o
atacante"), and in every accepted attack of `simular_ataque` the defender
loses one troop for each compared pair the attacker rolls strictly higher and
one troop for each tied compared pair. -/
theorem atacante_vence_empate (rand : Nat → Nat) (atacante defensor : Territorio)
    (a d : Int) :
    (atacante_vence a d = true ↔ a ≥ d) ∧
    atacante_vence a a = true ∧
    (2 ≤ atacante.num_tropas → 1 ≤ defensor.num_tropas →
      (simular_ataque rand atacante defensor).perdas_defensor =
        contar (fun i => decide (dado_ataque rand i >
            dado_defesa rand (num_dados_ataque atacante) i))
          (min (num_dados_ataque atacante) (num_dados_defesa defensor)).toNat +
        contar (fun i => decide (dado_ataque rand i =
            dado_defesa rand (num_dados_ataque atacante) i))
          (min (num_dados_ataque atacante) (num_dados_defesa defensor)).toNat) := by
  refine ⟨by simp [atacante_vence], by simp [atacante_vence], fun ha hd => ?_⟩
  have hd0 : defensor.num_tropas ≠ 0 := by omega
  rw [(simular_ataque_perdas rand atacante defensor ha hd0).2, comparar_snd,
    num_confrontos_eq_min, ← contar_ge_parte]
  exact contar_congr _ _ _ (fun i _ => by simp [atacante_vence])

/-- C13 (witness): a 3-troop attacker against a 1-troop defender, both first
dice showing 4: the tied pair costs the defender its troop. -/
theorem atacante_vence_empate_witness :
    atacante_vence 4 4 = true ∧
    (simular_ataque (rand_de [3, 0, 3]) (Territorio.mk "Alaska" "Azul" 3)
        (Territorio.mk "Groenlandia" "Vermelho" 1)).perdas_defensor = 1 := by
  have h := atacante_vence_empate (rand_de [3, 0, 3]) (Territorio.mk "Alaska" "Azul" 3)
    (Territorio.mk "Groenlandia" "Vermelho" 1) 4 4
  refine ⟨h.2.1, ?_⟩
  rw [h.2.2 (by decide) (by decide)]
  decide

/-! ## Accepted attacks: losses, clamps and conquest -/

/-- In an accepted attack the number of compared pairs is at least 1, at most
2, at most the attacker's troops minus 1 and at most the defender's troops. -/
theorem num_confrontos_limites (atacante defensor : Territorio)
    (ha : 2 ≤ atacante.num_tropas) (hd : 1 ≤ defensor.num_tropas) :
    (1 : Int) ≤ (num_confrontos (num_dados_ataque atacante)
        (num_dados_defesa defensor)).toNat ∧
    ((num_confrontos (num_dados_ataque atacante)
        (num_dados_defesa defensor)).toNat : Int) ≤ 2 ∧
    ((num_confrontos (num_dados_ataque atacante)
        (num_dados_defesa defensor)).toNat : Int) ≤ atacante.num_tropas - 1 ∧
    ((num_confrontos (num_dados_ataque atacante)
        (num_dados_defesa defensor)).toNat : Int) ≤ defensor.num_tropas ∧
    ((num_confrontos (num_dados_ataque atacante)
        (num_dados_defesa defensor)).toNat : Int) =
      min (atacante.num_tropas - 1) (min 3 (min defensor.num_tropas 2)) := by
  unfold num_confrontos num_dados_ataque num_dados_defesa DADOS_ATAQUE DADOS_DEFESA
  split_ifs <;> omega

theorem comparar_limites (da dd : Nat → Int) (n : Nat) :
    0 ≤ (comparar da dd n).1 ∧ 0 ≤ (comparar da dd n).2 ∧
    (comparar da dd n).1 + (comparar da dd n).2 = n := by
  refine ⟨?_, ?_, comparar_soma da dd n⟩
  · rw [comparar_fst]; exact contar_nonneg _ _
  · rw [comparar_snd]; exact contar_nonneg _ _

/-- The defender counter reaches the number of iterations exactly when the
attacker wins every compared pair. -/
theorem comparar_snd_eq_iff (da dd : Nat → Int) (n : Nat) :
    (comparar da dd n).2 = n ↔ ∀ i : Nat, i < n → atacante_vence (da i) (dd i) = true := by
  induction n with
  | zero => simp [comparar]
  | succ n ih =>
    have hl := comparar_limites da dd n
    by_cases h : atacante_vence (da n) (dd n) = true
    · simp only [comparar, h, if_true]
      constructor
      · intro he i hi
        rcases Nat.lt_succ_iff_lt_or_eq.mp hi with hlt | heq
        · exact ih.mp (by push_cast at he; omega) i hlt
        · rw [heq]; exact h
      · intro hall
        have := ih.mpr (fun i hi => hall i (Nat.lt_succ_of_lt hi))
        push_cast
        omega
    · simp only [comparar, h]
      constructor
      · intro he
        push_cast at he
        omega
      · intro hall
        exact absurd (hall n (Nat.lt_succ_self n)) h

/-- An attack that passes both guards ends in a conquest exactly when the
defender's troops minus its losses is not positive. -/
theorem simular_ataque_desfecho_conquista (rand : Nat → Nat) (atacante defensor : Territorio)
    (ha : 2 ≤ atacante.num_tropas) (hd : defensor.num_tropas ≠ 0) :
    (simular_ataque rand atacante defensor).desfecho = Desfecho.conquista ↔
      defensor.num_tropas -
        (comparar (dado_ataque rand) (dado_defesa rand (num_dados_ataque atacante))
          (num_confrontos (num_dados_ataque atacante)
            (num_dados_defesa defensor)).toNat).2 ≤ 0 := by
  have h2 : ¬ atacante.num_tropas < 2 := not_lt.mpr ha
  simp only [simular_ataque, if_neg h2, if_neg hd]
  split_ifs <;> simp <;> omega

/-- C14 (as amended): for every call of `simular_ataque` on two distinct
territories and every stream of `rand()` values, both names are unchanged and
the attacker's owner is unchanged; the defender's owner changes only in a call
that ends in a conquest; and in a call that does not, the defender keeps its
owner and, if it had at least 1 troop before the call, ends with at least 1. -/
theorem simular_ataque_moldura (rand : Nat → Nat) (atacante defensor : Territorio) :
    (simular_ataque rand atacante defensor).atacante.nome = atacante.nome ∧
    (simular_ataque rand atacante defensor).defensor.nome = defensor.nome ∧
    (simular_ataque rand atacante defensor).atacante.cor_exercito = atacante.cor_exercito ∧
    ((simular_ataque rand atacante defensor).defensor.cor_exercito ≠ defensor.cor_exercito →
      (simular_ataque rand atacante defensor).desfecho = Desfecho.conquista) ∧
    ((simular_ataque rand atacante defensor).desfecho ≠ Desfecho.conquista →
      (simular_ataque rand atacante defensor).defensor.cor_exercito = defensor.cor_exercito ∧
      (1 ≤ defensor.num_tropas →
        1 ≤ (simular_ataque rand atacante defensor).defensor.num_tropas)) := by
  by_cases h2 : atacante.num_tropas < 2
  · simp [simular_ataque, h2]
  · by_cases hd0 : defensor.num_tropas = 0
    · simp [simular_ataque, h2, hd0]
    · simp only [simular_ataque, if_neg h2, if_neg hd0]
      split_ifs <;> simp <;> omega

/-- C14 (witness): a 3-troop Azul attacker and a 2-troop Verde defender,
attacker dice `[1, 1]` against `[6, 6]`: no conquest, the defender stays Verde
with its 2 troops. -/
theorem simular_ataque_moldura_witness :
    (simular_ataque (rand_de [0, 0, 5, 5]) (Territorio.mk "Alaska" "Azul" 3)
      (Territorio.mk "Siberia" "Verde" 2)).defensor.cor_exercito = "Verde" ∧
    (1 : Int) ≤ (simular_ataque (rand_de [0, 0, 5, 5]) (Territorio.mk "Alaska" "Azul" 3)
      (Territorio.mk "Siberia" "Verde" 2)).defensor.num_tropas :=
  have h := (simular_ataque_moldura (rand_de [0, 0, 5, 5]) (Territorio.mk "Alaska" "Azul" 3)
    (Territorio.mk "Siberia" "Verde" 2)).2.2.2.2 (by decide)
  ⟨h.1, h.2 (by decide)⟩

/-- C14 (counterexample to "otherwise the defender ends with at least 1
troop"): a 3-troop attacker against a defender with 0 troops.  The call takes
the "already without troops" exit: no conquest, the defender keeps its owner,
and it ends with 0 troops. -/
theorem simular_ataque_moldura_defensor_zero :
    (simular_ataque (fun _ => 0) (Territorio.mk "Alaska" "Azul" 3)
        (Territorio.mk "Siberia" "Verde" 0)).desfecho = Desfecho.defensor_sem_tropas ∧
    (simular_ataque (fun _ => 0) (Territorio.mk "Alaska" "Azul" 3)
        (Territorio.mk "Siberia" "Verde" 0)).defensor.cor_exercito = "Verde" ∧
    ¬ ((simular_ataque (fun _ => 0) (Territorio.mk "Alaska" "Azul" 3)
          (Territorio.mk "Siberia" "Verde" 0)).desfecho ≠ Desfecho.conquista →
        (simular_ataque (fun _ => 0) (Territorio.mk "Alaska" "Azul" 3)
            (Territorio.mk "Siberia" "Verde" 0)).defensor.cor_exercito = "Verde" ∧
        1 ≤ (simular_ataque (fun _ => 0) (Territorio.mk "Alaska" "Azul" 3)
            (Territorio.mk "Siberia" "Verde" 0)).defensor.num_tropas) := by
  decide

/-- Troop counts after an accepted attack, in terms of the two loss counters:
neither floor changes a value, a conquest happens only with no attacker loss,
and both territories end with at least 1 troop. -/
theorem simular_ataque_aceito (rand : Nat → Nat) (atacante defensor : Territorio)
    (ha : 2 ≤ atacante.num_tropas) (hd : 1 ≤ defensor.num_tropas) :
    1 ≤ atacante.num_tropas - (simular_ataque rand atacante defensor).perdas_atacante ∧
    0 ≤ defensor.num_tropas - (simular_ataque rand atacante defensor).perdas_defensor ∧
    ((simular_ataque rand atacante defensor).desfecho = Desfecho.conquista →
      (simular_ataque rand atacante defensor).perdas_atacante = 0 ∧
      (simular_ataque rand atacante defensor).perdas_defensor = defensor.num_tropas ∧
      (simular_ataque rand atacante defensor).atacante.num_tropas =
        atacante.num_tropas - 1 ∧
      (simular_ataque rand atacante defensor).defensor.num_tropas = 1) ∧
    ((simular_ataque rand atacante defensor).desfecho ≠ Desfecho.conquista →
      (simular_ataque rand atacante defensor).atacante.num_tropas =
        atacante.num_tropas - (simular_ataque rand atacante defensor).perdas_atacante ∧
      (simular_ataque rand atacante defensor).defensor.num_tropas =
        defensor.num_tropas - (simular_ataque rand atacante defensor).perdas_defensor) ∧
    1 ≤ (simular_ataque rand atacante defensor).atacante.num_tropas ∧
    1 ≤ (simular_ataque rand atacante defensor).defensor.num_tropas ∧
    (simular_ataque rand atacante defensor).perdas_atacante +
        (simular_ataque rand atacante defensor).perdas_defensor =
      (num_confrontos (num_dados_ataque atacante) (num_dados_defesa defensor)).toNat := by
  have h2 : ¬ atacante.num_tropas < 2 := not_lt.mpr ha
  have hd0 : defensor.num_tropas ≠ 0 := by omega
  have hk := num_confrontos_limites atacante defensor ha hd
  have hl := comparar_limites (dado_ataque rand)
    (dado_defesa rand (num_dados_ataque atacante))
    (num_confrontos (num_dados_ataque atacante) (num_dados_defesa defensor)).toNat
  simp only [simular_ataque, if_neg h2, if_neg hd0]
  split_ifs <;> simp <;> omega

/-- C15: in every accepted attack (attacker troops at least 2, defender troops
at least 1, two distinct territories) and for every stream of `rand()` values,
the attacker ends the call with at least 1 troop, also after the conquest
decrement: a conquest occurs only in a call where the attacker lost no troop
to the dice, and then the attacker ends with its pre-call count minus 1.
Neither floor changes a value: the attacker's count minus its losses is
already at least 1 and the defender's count minus its losses is already at
least 0. -/
theorem simular_ataque_atacante_fica (rand : Nat → Nat) (atacante defensor : Territorio)
    (ha : 2 ≤ atacante.num_tropas) (hd : 1 ≤ defensor.num_tropas) :
    1 ≤ (simular_ataque rand atacante defensor).atacante.num_tropas ∧
    ((simular_ataque rand atacante defensor).desfecho = Desfecho.conquista →
      (simular_ataque rand atacante defensor).perdas_atacante = 0 ∧
      (simular_ataque rand atacante defensor).atacante.num_tropas =
        atacante.num_tropas - 1) ∧
    (if atacante.num_tropas - (simular_ataque rand atacante defensor).perdas_atacante < 1
      then 1
      else atacante.num_tropas - (simular_ataque rand atacante defensor).perdas_atacante) =
      atacante.num_tropas - (simular_ataque rand atacante defensor).perdas_atacante ∧
    (if defensor.num_tropas - (simular_ataque rand atacante defensor).perdas_defensor < 0
      then 0
      else defensor.num_tropas - (simular_ataque rand atacante defensor).perdas_defensor) =
      defensor.num_tropas - (simular_ataque rand atacante defensor).perdas_defensor := by
  have h := simular_ataque_aceito rand atacante defensor ha hd
  refine ⟨h.2.2.2.2.1, fun hc => ⟨(h.2.2.1 hc).1, (h.2.2.1 hc).2.2.1⟩, ?_, ?_⟩
  · rw [if_neg (by omega)]
  · rw [if_neg (by omega)]

/-- C15 (witness): a 2-troop attacker conquers a 1-troop defender on a tie and
ends with 1 troop, having lost none to the dice. -/
theorem simular_ataque_atacante_fica_witness :
    (1 : Int) ≤ (simular_ataque (fun _ => 0) (Territorio.mk "Alaska" "Azul" 2)
      (Territorio.mk "Siberia" "Verde" 1)).atacante.num_tropas ∧
    (simular_ataque (fun _ => 0) (Territorio.mk "Alaska" "Azul" 2)
      (Territorio.mk "Siberia" "Verde" 1)).perdas_atacante = 0 ∧
    (simular_ataque (fun _ => 0) (Territorio.mk "Alaska" "Azul" 2)
      (Territorio.mk "Siberia" "Verde" 1)).atacante.num_tropas = (2 : Int) - 1 :=
  have h := simular_ataque_atacante_fica (fun _ => 0) (Territorio.mk "Alaska" "Azul" 2)
    (Territorio.mk "Siberia" "Verde" 1) (by decide) (by decide)
  ⟨h.1, (h.2.1 (by decide)).1, (h.2.1 (by decide)).2⟩

/-- C16: in every accepted attack (attacker troops `a ≥ 2`, defender troops
`d ≥ 1`) and for every stream of `rand()` values, the call ends in a conquest
iff `d ≤ min (a - 1) (min 3 2)` and the attacker wins each of the first `d`
pairs (`atacante_vence`, so ties included).  In particular a defender with at
least 3 troops, and a 2-troop defender attacked by a 2-troop attacker, are
never conquered in that call. -/
theorem simular_ataque_conquista_sse (rand : Nat → Nat) (atacante defensor : Territorio)
    (ha : 2 ≤ atacante.num_tropas) (hd : 1 ≤ defensor.num_tropas) :
    ((simular_ataque rand atacante defensor).desfecho = Desfecho.conquista ↔
      defensor.num_tropas ≤ min (atacante.num_tropas - 1) (min 3 2) ∧
      ∀ i : Nat, i < defensor.num_tropas.toNat →
        atacante_vence (dado_ataque rand i)
          (dado_defesa rand (num_dados_ataque atacante) i) = true) ∧
    (3 ≤ defensor.num_tropas →
      (simular_ataque rand atacante defensor).desfecho ≠ Desfecho.conquista) ∧
    (atacante.num_tropas = 2 → defensor.num_tropas = 2 →
      (simular_ataque rand atacante defensor).desfecho ≠ Desfecho.conquista) := by
  have hd0 : defensor.num_tropas ≠ 0 := by omega
  have hk := num_confrontos_limites atacante defensor ha hd
  have hl := comparar_limites (dado_ataque rand)
    (dado_defesa rand (num_dados_ataque atacante))
    (num_confrontos (num_dados_ataque atacante) (num_dados_defesa defensor)).toNat
  have hiff := comparar_snd_eq_iff (dado_ataque rand)
    (dado_defesa rand (num_dados_ataque atacante))
    (num_confrontos (num_dados_ataque atacante) (num_dados_defesa defensor)).toNat
  have hc := simular_ataque_desfecho_conquista rand atacante defensor ha hd0
  have key : (simular_ataque rand atacante defensor).desfecho = Desfecho.conquista ↔
      defensor.num_tropas ≤ min (atacante.num_tropas - 1) (min 3 2) ∧
      ∀ i : Nat, i < defensor.num_tropas.toNat →
        atacante_vence (dado_ataque rand i)
          (dado_defesa rand (num_dados_ataque atacante) i) = true := by
    rw [hc]
    constructor
    · intro h
      have hle : defensor.num_tropas ≤ min (atacante.num_tropas - 1) (min 3 2) := by omega
      have hn : defensor.num_tropas.toNat =
          (num_confrontos (num_dados_ataque atacante) (num_dados_defesa defensor)).toNat := by
        omega
      refine ⟨hle, ?_⟩
      rw [hn]
      exact hiff.mp (by omega)
    · rintro ⟨hle, hall⟩
      have hn : defensor.num_tropas.toNat =
          (num_confrontos (num_dados_ataque atacante) (num_dados_defesa defensor)).toNat := by
        omega
      rw [hn] at hall
      have := hiff.mpr hall
      omega
  refine ⟨key, fun h3 hcq => ?_, fun ha2 hd2 hcq => ?_⟩
  · have := (key.mp hcq).1
    omega
  · have := (key.mp hcq).1
    omega

/-- C16 (witness): a 3-troop attacker against a 2-troop defender, dice `[4, 6]`
against `[4, 2]`: the attacker wins both pairs and conquers. -/
theorem simular_ataque_conquista_sse_witness :
    (simular_ataque (rand_de [3, 5, 3, 1]) (Territorio.mk "Alaska" "Azul" 3)
      (Territorio.mk "Siberia" "Verde" 2)).desfecho = Desfecho.conquista :=
  (simular_ataque_conquista_sse (rand_de [3, 5, 3, 1]) (Territorio.mk "Alaska" "Azul" 3)
    (Territorio.mk "Siberia" "Verde" 2) (by decide) (by decide)).1.mpr
    ⟨by decide, by decide⟩

/-! ## Attacks on the map -/

/-- The attack option either leaves the map alone and calls nothing, or calls
`simular_ataque` on the two selected entries, which sit at different
positions, and stores its two results there. -/
theorem atacar_casos (mapa : List Territorio) (a : Ataque) :
    atacar mapa a = (mapa, none) ∨
    ∃ atacante defensor,
      mapa[(a.atacante_idx - 1).toNat]? = some atacante ∧
      mapa[(a.defensor_idx - 1).toNat]? = some defensor ∧
      (a.atacante_idx - 1).toNat ≠ (a.defensor_idx - 1).toNat ∧
      atacar mapa a =
        ((mapa.set (a.atacante_idx - 1).toNat
            (simular_ataque a.rand atacante defensor).atacante).set
          (a.defensor_idx - 1).toNat (simular_ataque a.rand atacante defensor).defensor,
         some (simular_ataque a.rand atacante defensor)) := by
  unfold atacar
  split_ifs with h
  · cases hA : mapa[(a.atacante_idx - 1).toNat]? with
    | none => left; rfl
    | some atacante =>
      cases hD : mapa[(a.defensor_idx - 1).toNat]? with
      | none => left; rfl
      | some defensor =>
        right
        exact ⟨atacante, defensor, rfl, rfl, by omega, rfl⟩
  · left; rfl

theorem atacar_length (mapa : List Territorio) (a : Ataque) :
    (atacar mapa a).1.length = mapa.length := by
  rcases atacar_casos mapa a with h | ⟨atacante, defensor, _, _, _, h⟩
  · rw [h]
  · rw [h]; simp

theorem jogar_length (mapa : List Territorio) (as : List Ataque) :
    (jogar mapa as).length = mapa.length := by
  induction as generalizing mapa with
  | nil => rfl
  | cons a resto ih => rw [jogar, ih, atacar_length]

/-- Every entry of the map after an attack option is an entry of the map
before it or one of the two results of a `simular_ataque` call on two entries
of the map before it. -/
theorem atacar_mem (mapa : List Territorio) (a : Ataque) (t : Territorio)
    (ht : t ∈ (atacar mapa a).1) :
    t ∈ mapa ∨ ∃ atacante defensor, atacante ∈ mapa ∧ defensor ∈ mapa ∧
      (t = (simular_ataque a.rand atacante defensor).atacante ∨
       t = (simular_ataque a.rand atacante defensor).defensor) := by
  rcases atacar_casos mapa a with h | ⟨atacante, defensor, hA, hD, _, h⟩
  · rw [h] at ht; exact Or.inl ht
  · rw [h] at ht
    rcases List.mem_or_eq_of_mem_set ht with h1 | h1
    · rcases List.mem_or_eq_of_mem_set h1 with h2 | h2
      · exact Or.inl h2
      · exact Or.inr ⟨atacante, defensor, List.getElem?_mem hA, List.getElem?_mem hD,
          Or.inl h2⟩
    · exact Or.inr ⟨atacante, defensor, List.getElem?_mem hA, List.getElem?_mem hD,
        Or.inr h1⟩

/-- Both territories of a call that starts with at least 1 troop each end
with at least 1 troop each. -/
theorem simular_ataque_pos (rand : Nat → Nat) (atacante defensor : Territorio)
    (ha : 1 ≤ atacante.num_tropas) (hd : 1 ≤ defensor.num_tropas) :
    1 ≤ (simular_ataque rand atacante defensor).atacante.num_tropas ∧
    1 ≤ (simular_ataque rand atacante defensor).defensor.num_tropas := by
  by_cases h2 : atacante.num_tropas < 2
  · simp [simular_ataque, h2, ha, hd]
  · have h := simular_ataque_aceito rand atacante defensor (not_lt.mp h2) hd
    exact ⟨h.2.2.2.2.1, h.2.2.2.2.2.1⟩

theorem atacar_pos (mapa : List Territorio) (a : Ataque)
    (h : ∀ t ∈ mapa, 1 ≤ t.num_tropas) : ∀ t ∈ (atacar mapa a).1, 1 ≤ t.num_tropas := by
  intro t ht
  rcases atacar_mem mapa a t ht with h1 | ⟨atacante, defensor, hA, hD, h1 | h1⟩
  · exact h t h1
  · rw [h1]; exact (simular_ataque_pos a.rand atacante defensor (h _ hA) (h _ hD)).1
  · rw [h1]; exact (simular_ataque_pos a.rand atacante defensor (h _ hA) (h _ hD)).2

theorem jogar_pos (mapa : List Territorio) (as : List Ataque)
    (h : ∀ t ∈ mapa, 1 ≤ t.num_tropas) : ∀ t ∈ jogar mapa as, 1 ≤ t.num_tropas := by
  induction as generalizing mapa with
  | nil => exact h
  | cons a resto ih => exact ih (atacar mapa a).1 (atacar_pos mapa a h)

/-- C18: in every state reached from the initial map (troops 3, 2, 4, 3, 2) by
any sequence of attack options of the menu, with any numbers typed and any
dice, every territory has at least 1 troop; hence no further attack option
takes the "defender already without troops" exit of `simular_ataque`. -/
theorem mapa_alcancavel_tropas_pos (as : List Ataque) (a : Ataque) :
    (∀ t ∈ jogar (configurar_territorios_iniciais NUM_TERRITORIOS) as, 1 ≤ t.num_tropas) ∧
    (∀ r, (atacar (jogar (configurar_territorios_iniciais NUM_TERRITORIOS) as) a).2 = some r →
      r.desfecho ≠ Desfecho.defensor_sem_tropas) := by
  have hpos := jogar_pos (configurar_territorios_iniciais NUM_TERRITORIOS) as (by decide)
  refine ⟨hpos, fun r hr => ?_⟩
  rcases atacar_casos (jogar (configurar_territorios_iniciais NUM_TERRITORIOS) as) a with
    h | ⟨atacante, defensor, _, hD, _, h⟩
  · rw [h] at hr; exact absurd hr (by simp)
  · rw [h] at hr
    have hr2 : simular_ataque a.rand atacante defensor = r := by simpa using hr
    rw [← hr2]
    have hd := hpos defensor (List.getElem?_mem hD)
    have hd0 : defensor.num_tropas ≠ 0 := by omega
    by_cases h2 : atacante.num_tropas < 2
    · simp [simular_ataque, h2]
    · simp only [simular_ataque, if_neg h2, if_neg hd0]
      split_ifs <;> simp

/-- C18 (witness): after Alaska conquers Siberia on two ties and Brasil then
attacks Groenlandia, Siberia holds 1 troop, and an attack on it from Brasil
does not take the "already without troops" exit. -/
theorem mapa_alcancavel_tropas_pos_witness :
    (1 : Int) ≤ (Territorio.mk "Siberia" "Azul" 1).num_tropas ∧
    (simular_ataque (fun _ => 3) (Territorio.mk "Brasil" "Azul" 2)
      (Territorio.mk "Siberia" "Azul" 1)).desfecho ≠ Desfecho.defensor_sem_tropas :=
  have h := mapa_alcancavel_tropas_pos
    [Ataque.mk (fun _ => 0) 1 5, Ataque.mk (rand_de [0, 0, 0, 5, 5]) 3 2]
    (Ataque.mk (fun _ => 3) 3 5)
  ⟨h.1 (Territorio.mk "Siberia" "Azul" 1) (by decide),
   h.2 (simular_ataque (fun _ => 3) (Territorio.mk "Brasil" "Azul" 2)
      (Territorio.mk "Siberia" "Azul" 1)) (by decide)⟩

/-! ## Troop conservation -/

theorem total_tropas_set (l : List Territorio) (i : Nat) (t x : Territorio)
    (h : l[i]? = some t) :
    total_tropas (l.set i x) = total_tropas l - t.num_tropas + x.num_tropas := by
  induction l generalizing i with
  | nil => simp at h
  | cons y ys ih =>
    cases i with
    | zero =>
      simp at h
      subst h
      simp only [total_tropas, List.set_cons_zero, List.map_cons, List.sum_cons]
      omega
    | succ n =>
      simp at h
      have e := ih n h
      unfold total_tropas at e
      simp only [total_tropas, List.set_cons_succ, List.map_cons, List.sum_cons, e]
      omega

/-- A call of `simular_ataque` on a defender with no negative troop count
never raises the sum of the two troop counts. -/
theorem simular_ataque_soma_le (rand : Nat → Nat) (atacante defensor : Territorio)
    (hd : 0 ≤ defensor.num_tropas) :
    (simular_ataque rand atacante defensor).atacante.num_tropas +
        (simular_ataque rand atacante defensor).defensor.num_tropas ≤
      atacante.num_tropas + defensor.num_tropas := by
  by_cases h2 : atacante.num_tropas < 2
  · simp [simular_ataque, h2]
  · by_cases hd0 : defensor.num_tropas = 0
    · simp [simular_ataque, h2, hd0]
    · have h := simular_ataque_aceito rand atacante defensor (not_lt.mp h2) (by omega)
      by_cases hc : (simular_ataque rand atacante defensor).desfecho = Desfecho.conquista
      · have h1 := h.2.2.1 hc
        omega
      · have h1 := h.2.2.2.1 hc
        omega

theorem atacar_total_le (mapa : List Territorio) (a : Ataque)
    (h : ∀ t ∈ mapa, 0 ≤ t.num_tropas) :
    total_tropas (atacar mapa a).1 ≤ total_tropas mapa := by
  rcases atacar_casos mapa a with h1 | ⟨atacante, defensor, hA, hD, hne, h1⟩
  · rw [h1]
  · rw [h1]
    have hD2 : (mapa.set (a.atacante_idx - 1).toNat
        (simular_ataque a.rand atacante defensor).atacante)[(a.defensor_idx - 1).toNat]? =
        some defensor := by
      rw [List.getElem?_set_ne hne]; exact hD
    have e1 := total_tropas_set _ _ _ (simular_ataque a.rand atacante defensor).defensor hD2
    have e2 := total_tropas_set mapa _ _ (simular_ataque a.rand atacante defensor).atacante hA
    have hs := simular_ataque_soma_le a.rand atacante defensor (h _ (List.getElem?_mem hD))
    show total_tropas ((mapa.set (a.atacante_idx - 1).toNat
        (simular_ataque a.rand atacante defensor).atacante).set (a.defensor_idx - 1).toNat
        (simular_ataque a.rand atacante defensor).defensor) ≤ total_tropas mapa
    omega

theorem jogar_total_le (mapa : List Territorio) (as : List Ataque)
    (h : ∀ t ∈ mapa, 1 ≤ t.num_tropas) :
    total_tropas (jogar mapa as) ≤ total_tropas mapa := by
  induction as generalizing mapa with
  | nil => exact le_refl _
  | cons a resto ih =>
    have h0 : ∀ t ∈ mapa, 0 ≤ t.num_tropas := fun t ht => by have := h t ht; omega
    exact le_trans (ih (atacar mapa a).1 (atacar_pos mapa a h)) (atacar_total_le mapa a h0)

/-- C17: in every accepted attack (attacker troops at least 2, defender troops
at least 1, two distinct territories) and for every stream of `rand()` values,
the sum of the two troop counts drops by exactly `min(attack dice, defense
dice)`, which is at least 1, with or without a conquest; a rejected attack
leaves the sum as it was.  So an attack option never raises the total troop
count of a map without negative counts, and no sequence of attack options
raises the total of a map whose territories all hold at least 1 troop. -/
theorem simular_ataque_conserva_tropas (rand : Nat → Nat) (atacante defensor : Territorio)
    (mapa : List Territorio) (a : Ataque) (as : List Ataque) :
    (2 ≤ atacante.num_tropas → 1 ≤ defensor.num_tropas →
      (atacante.num_tropas + defensor.num_tropas) -
          ((simular_ataque rand atacante defensor).atacante.num_tropas +
            (simular_ataque rand atacante defensor).defensor.num_tropas) =
        min (num_dados_ataque atacante) (num_dados_defesa defensor) ∧
      1 ≤ min (num_dados_ataque atacante) (num_dados_defesa defensor)) ∧
    (atacante.num_tropas < 2 ∨ defensor.num_tropas = 0 →
      (simular_ataque rand atacante defensor).atacante.num_tropas +
          (simular_ataque rand atacante defensor).defensor.num_tropas =
        atacante.num_tropas + defensor.num_tropas) ∧
    ((∀ t ∈ mapa, 0 ≤ t.num_tropas) →
      total_tropas (atacar mapa a).1 ≤ total_tropas mapa) ∧
    ((∀ t ∈ mapa, 1 ≤ t.num_tropas) →
      total_tropas (jogar mapa as) ≤ total_tropas mapa) := by
  refine ⟨fun ha hd => ?_, fun hr => ?_, atacar_total_le mapa a, jogar_total_le mapa as⟩
  · have h := simular_ataque_aceito rand atacante defensor ha hd
    have hk := num_confrontos_limites atacante defensor ha hd
    rw [← num_confrontos_eq_min]
    by_cases hc : (simular_ataque rand atacante defensor).desfecho = Desfecho.conquista
    · have h1 := h.2.2.1 hc
      omega
    · have h1 := h.2.2.2.1 hc
      omega
  · by_cases h2 : atacante.num_tropas < 2
    · simp [simular_ataque, h2]
    · have hd0 : defensor.num_tropas = 0 := by
        rcases hr with h | h
        · exact absurd h h2
        · exact h
      simp [simular_ataque, h2, hd0]

/-- C17 (witness): Brasil (4 troops, 3 dice) conquers Siberia (2 troops, 2 dice)
on two ties: 6 troops before, 4 after, 2 pairs compared; and the initial map's
14 troops do not grow when that attack is played on it. -/
theorem simular_ataque_conserva_tropas_witness :
    ((4 : Int) + 2) -
        ((simular_ataque (fun _ => 0) (Territorio.mk "Brasil" "Azul" 4)
            (Territorio.mk "Siberia" "Verde" 2)).atacante.num_tropas +
          (simular_ataque (fun _ => 0) (Territorio.mk "Brasil" "Azul" 4)
            (Territorio.mk "Siberia" "Verde" 2)).defensor.num_tropas) =
      min (num_dados_ataque (Territorio.mk "Brasil" "Azul" 4))
        (num_dados_defesa (Territorio.mk "Siberia" "Verde" 2)) ∧
    total_tropas (jogar (configurar_territorios_iniciais NUM_TERRITORIOS)
        [Ataque.mk (fun _ => 0) 3 5]) ≤
      total_tropas (configurar_territorios_iniciais NUM_TERRITORIOS) :=
  have h := simular_ataque_conserva_tropas (fun _ => 0) (Territorio.mk "Brasil" "Azul" 4)
    (Territorio.mk "Siberia" "Verde" 2) (configurar_territorios_iniciais NUM_TERRITORIOS)
    (Ataque.mk (fun _ => 0) 3 5) [Ataque.mk (fun _ => 0) 3 5]
  ⟨(h.1 (by decide) (by decide)).1, h.2.2.2 (by decide)⟩

/-! ## Owners on the map -/

/-- Owners after a call: the attacker keeps its owner; the defender takes the
attacker's owner in a conquest and keeps its own otherwise. -/
theorem simular_ataque_cores (rand : Nat → Nat) (atacante defensor : Territorio) :
    (simular_ataque rand atacante defensor).atacante.cor_exercito = atacante.cor_exercito ∧
    ((simular_ataque rand atacante defensor).desfecho = Desfecho.conquista →
      (simular_ataque rand atacante defensor).defensor.cor_exercito =
        atacante.cor_exercito) ∧
    ((simular_ataque rand atacante defensor).desfecho ≠ Desfecho.conquista →
      (simular_ataque rand atacante defensor).defensor.cor_exercito =
        defensor.cor_exercito) := by
  by_cases h2 : atacante.num_tropas < 2
  · simp [simular_ataque, h2]
  · by_cases hd0 : defensor.num_tropas = 0
    · simp [simular_ataque, h2, hd0]
    · simp only [simular_ataque, if_neg h2, if_neg hd0]
      split_ifs <;> simp

theorem atacar_cores (mapa : List Territorio) (a : Ataque) :
    ∀ t ∈ (atacar mapa a).1, ∃ t0 ∈ mapa, t.cor_exercito = t0.cor_exercito := by
  intro t ht
  rcases atacar_mem mapa a t ht with h1 | ⟨atacante, defensor, hA, hD, h1 | h1⟩
  · exact ⟨t, h1, rfl⟩
  · exact ⟨atacante, hA, by rw [h1]; exact (simular_ataque_cores a.rand atacante defensor).1⟩
  · have hc := simular_ataque_cores a.rand atacante defensor
    by_cases hq : (simular_ataque a.rand atacante defensor).desfecho = Desfecho.conquista
    · exact ⟨atacante, hA, by rw [h1]; exact hc.2.1 hq⟩
    · exact ⟨defensor, hD, by rw [h1]; exact hc.2.2 hq⟩

theorem jogar_cores (mapa : List Territorio) (as : List Ataque) :
    ∀ t ∈ jogar mapa as, ∃ t0 ∈ mapa, t.cor_exercito = t0.cor_exercito := by
  induction as generalizing mapa with
  | nil => exact fun t ht => ⟨t, ht, rfl⟩
  | cons a resto ih =>
    intro t ht
    obtain ⟨t1, ht1, e1⟩ := ih (atacar mapa a).1 t ht
    obtain ⟨t0, ht0, e0⟩ := atacar_cores mapa a t1 ht1
    exact ⟨t0, ht0, e1.trans e0⟩

theorem verificar_vitoria_conquistar_cinco (mapa : List Territorio) (h5 : mapa.length = 5) :
    verificar_vitoria mapa TipoMissao.MISSAO_CONQUISTAR_3 = true ↔
      ∀ t ∈ mapa, t.cor_exercito = "Azul" := by
  rw [verificar_vitoria_conquistar_iff]
  have hle := List.countP_le_length (fun t => decide (t.cor_exercito = "Azul")) (l := mapa)
  constructor
  · intro h t ht
    have heq : mapa.countP (fun t => decide (t.cor_exercito = "Azul")) = mapa.length := by
      omega
    simpa using List.countP_eq_length.mp heq t ht
  · intro h
    have heq : mapa.countP (fun t => decide (t.cor_exercito = "Azul")) = mapa.length :=
      List.countP_eq_length.mpr (fun t ht => by simpa using h t ht)
    omega

/-- C19: a call of `simular_ataque` on two distinct territories leaves the
attacker's owner alone and gives the defender its own or the attacker's
owner, so every owner label on the map after an attack option, and after any
sequence of them, was on the map before.  Therefore once
`verificar_vitoria` holds for `MISSAO_DESTRUIR_VERDE`, or for
`MISSAO_CONQUISTAR_3` on a 5-territory map, it holds after any further
sequence of attack options. -/
theorem faccoes_nao_reaparecem (rand : Nat → Nat) (atacante defensor : Territorio)
    (mapa : List Territorio) (a : Ataque) (as : List Ataque) :
    ((simular_ataque rand atacante defensor).atacante.cor_exercito = atacante.cor_exercito ∧
      ((simular_ataque rand atacante defensor).defensor.cor_exercito =
          defensor.cor_exercito ∨
        (simular_ataque rand atacante defensor).defensor.cor_exercito =
          atacante.cor_exercito)) ∧
    (∀ t ∈ (atacar mapa a).1, ∃ t0 ∈ mapa, t.cor_exercito = t0.cor_exercito) ∧
    (∀ t ∈ jogar mapa as, ∃ t0 ∈ mapa, t.cor_exercito = t0.cor_exercito) ∧
    (verificar_vitoria mapa TipoMissao.MISSAO_DESTRUIR_VERDE = true →
      verificar_vitoria (jogar mapa as) TipoMissao.MISSAO_DESTRUIR_VERDE = true) ∧
    (mapa.length = 5 → verificar_vitoria mapa TipoMissao.MISSAO_CONQUISTAR_3 = true →
      verificar_vitoria (jogar mapa as) TipoMissao.MISSAO_CONQUISTAR_3 = true) := by
  have hc := simular_ataque_cores rand atacante defensor
  refine ⟨⟨hc.1, ?_⟩, atacar_cores mapa a, jogar_cores mapa as, fun hv => ?_,
    fun h5 hv => ?_⟩
  · by_cases hq : (simular_ataque rand atacante defensor).desfecho = Desfecho.conquista
    · exact Or.inr (hc.2.1 hq)
    · exact Or.inl (hc.2.2 hq)
  · have h0 := (missao_destruir_exercito_iff mapa "Verde").mp hv
    refine (missao_destruir_exercito_iff (jogar mapa as) "Verde").mpr (fun t ht => ?_)
    obtain ⟨t0, ht0, e⟩ := jogar_cores mapa as t ht
    rw [e]
    exact h0 t0 ht0
  · have h0 := (verificar_vitoria_conquistar_cinco mapa h5).mp hv
    refine (verificar_vitoria_conquistar_cinco (jogar mapa as)
      (by rw [jogar_length]; exact h5)).mpr (fun t ht => ?_)
    obtain ⟨t0, ht0, e⟩ := jogar_cores mapa as t ht
    rw [e]
    exact h0 t0 ht0

/-- C19 (witness): on a map without Verde, Groenlandia (Vermelho) conquers
Alaska from Azul; the mission "destroy Verde" still holds afterwards. -/
theorem faccoes_nao_reaparecem_witness :
    verificar_vitoria
      (jogar [Territorio.mk "Alaska" "Azul" 1, Territorio.mk "Groenlandia" "Vermelho" 2,
          Territorio.mk "Brasil" "Azul" 4, Territorio.mk "Africa do Sul" "Vermelho" 3,
          Territorio.mk "Siberia" "Azul" 1]
        [Ataque.mk (fun _ => 0) 2 1]) TipoMissao.MISSAO_DESTRUIR_VERDE = true :=
  (faccoes_nao_reaparecem (fun _ => 0) (Territorio.mk "Groenlandia" "Vermelho" 2)
    (Territorio.mk "Alaska" "Azul" 1)
    [Territorio.mk "Alaska" "Azul" 1, Territorio.mk "Groenlandia" "Vermelho" 2,
      Territorio.mk "Brasil" "Azul" 4, Territorio.mk "Africa do Sul" "Vermelho" 3,
      Territorio.mk "Siberia" "Azul" 1]
    (Ataque.mk (fun _ => 0) 2 1) [Ataque.mk (fun _ => 0) 2 1]).2.2.2.1 (by decide)

/-! ## The Verde mission, end to end -/

theorem atacar_valido (mapa : List Territorio) (a : Ataque) (atacante defensor : Territorio)
    (h1 : 1 ≤ a.atacante_idx) (h2 : a.atacante_idx ≤ 5)
    (h3 : 1 ≤ a.defensor_idx) (h4 : a.defensor_idx ≤ 5)
    (hne : a.atacante_idx ≠ a.defensor_idx)
    (hA : mapa[(a.atacante_idx - 1).toNat]? = some atacante)
    (hD : mapa[(a.defensor_idx - 1).toNat]? = some defensor) :
    atacar mapa a =
      ((mapa.set (a.atacante_idx - 1).toNat
          (simular_ataque a.rand atacante defensor).atacante).set
        (a.defensor_idx - 1).toNat (simular_ataque a.rand atacante defensor).defensor,
       some (simular_ataque a.rand atacante defensor)) := by
  have hc : a.atacante_idx ≥ 1 ∧ a.atacante_idx ≤ (NUM_TERRITORIOS : Int) ∧
      a.defensor_idx ≥ 1 ∧ a.defensor_idx ≤ (NUM_TERRITORIOS : Int) ∧
      a.atacante_idx ≠ a.defensor_idx :=
    ⟨h1, by simpa [NUM_TERRITORIOS] using h2, h3, by simpa [NUM_TERRITORIOS] using h4, hne⟩
  unfold atacar
  rw [if_pos hc]
  simp only [hA, hD]

/-- One attack on territory 5 from an Azul territory among territories 1 to 4,
on a 5-territory map whose territories 1 to 4 are not Verde: the call is made
on an Azul attacker and on territory 5, its defender result is stored in
territory 5, and territories 1 to 4 are still not Verde. -/
theorem atacar_azul_contra_5 (mapa : List Territorio) (a : Ataque)
    (hlen : mapa.length = 5)
    (hP : ∀ (k : Nat) (t : Territorio), k < 4 → mapa[k]? = some t → t.cor_exercito ≠ "Verde")
    (hv : azul_contra_5 mapa a = true) :
    ∃ atacante defensor, atacante.cor_exercito = "Azul" ∧ mapa[4]? = some defensor ∧
      (atacar mapa a).2 = some (simular_ataque a.rand atacante defensor) ∧
      (atacar mapa a).1[4]? = some (simular_ataque a.rand atacante defensor).defensor ∧
      (∀ (k : Nat) (t : Territorio), k < 4 → (atacar mapa a).1[k]? = some t →
        t.cor_exercito ≠ "Verde") := by
  unfold azul_contra_5 at hv
  simp only [Bool.and_eq_true, decide_eq_true_eq] at hv
  obtain ⟨⟨⟨h5, h1⟩, h4⟩, hm⟩ := hv
  cases hA : mapa[(a.atacante_idx - 1).toNat]? with
  | none => rw [hA] at hm; simp at hm
  | some atacante =>
    rw [hA] at hm
    have hcor : atacante.cor_exercito = "Azul" := by simpa using hm
    obtain ⟨defensor, hD⟩ : ∃ d, mapa[4]? = some d := by
      cases h : mapa[4]? with
      | none =>
        have := List.getElem?_eq_none_iff.mp h
        omega
      | some d => exact ⟨d, rfl⟩
    have hj : (a.defensor_idx - 1).toNat = 4 := by omega
    have hi : (a.atacante_idx - 1).toNat < 4 := by omega
    have e := atacar_valido mapa a atacante defensor h1 (by omega) (by omega) (by omega)
      (by omega) hA (by rw [hj]; exact hD)
    rw [hj] at e
    refine ⟨atacante, defensor, hcor, hD, by rw [e], ?_, ?_⟩
    · rw [e]
      exact List.getElem?_set_self (by simp; omega)
    · intro k t hk hkt
      rw [e] at hkt
      have h4k : (4 : Nat) ≠ k := by omega
      simp only [List.getElem?_set_ne h4k] at hkt
      by_cases hki : (a.atacante_idx - 1).toNat = k
      · have hlt : (a.atacante_idx - 1).toNat < mapa.length := by omega
        rw [← hki, List.getElem?_set_self hlt] at hkt
        have ht : (simular_ataque a.rand atacante defensor).atacante = t := by
          simpa using hkt
        rw [← ht, (simular_ataque_cores a.rand atacante defensor).1, hcor]
        decide
      · rw [List.getElem?_set_ne hki] at hkt
        exact hP k t hk hkt

theorem jogar_azul_contra_5 (mapa : List Territorio) (as : List Ataque)
    (hlen : mapa.length = 5)
    (hP : ∀ (k : Nat) (t : Territorio), k < 4 → mapa[k]? = some t → t.cor_exercito ≠ "Verde")
    (hv : todos_azul_contra_5 mapa as = true) :
    (∀ (k : Nat) (t : Territorio), k < 4 → (jogar mapa as)[k]? = some t →
      t.cor_exercito ≠ "Verde") ∧
    ((∃ t, mapa[4]? = some t ∧ t.cor_exercito = "Verde") → sem_conquista mapa as = true →
      ∃ t, (jogar mapa as)[4]? = some t ∧ t.cor_exercito = "Verde") := by
  induction as generalizing mapa with
  | nil => exact ⟨hP, fun h _ => h⟩
  | cons a resto ih =>
    simp only [todos_azul_contra_5, Bool.and_eq_true] at hv
    obtain ⟨hva, hvr⟩ := hv
    obtain ⟨atacante, defensor, _, hD, h2, h4, hP2⟩ :=
      atacar_azul_contra_5 mapa a hlen hP hva
    have ih2 := ih (atacar mapa a).1 (by rw [atacar_length]; exact hlen) hP2 hvr
    refine ⟨ih2.1, fun hverde hs => ?_⟩
    obtain ⟨t, ht, htv⟩ := hverde
    simp only [sem_conquista, Bool.and_eq_true, Bool.not_eq_true'] at hs
    obtain ⟨hnc, hsr⟩ := hs
    have htd : defensor = t := by
      rw [hD] at ht
      simpa using ht
    have hnq : (simular_ataque a.rand atacante defensor).desfecho ≠ Desfecho.conquista := by
      unfold conquistou at hnc
      rw [h2] at hnc
      simpa using hnc
    refine ih2.2 ⟨_, h4, ?_⟩ hsr
    rw [(simular_ataque_cores a.rand atacante defensor).2.2 hnq, htd]
    exact htv

theorem configurar_territorios_iniciais_sem_verde (k : Nat) (t : Territorio) (hk : k < 4)
    (h : (configurar_territorios_iniciais NUM_TERRITORIOS)[k]? = some t) :
    t.cor_exercito ≠ "Verde" := by
  have hm : configurar_territorios_iniciais NUM_TERRITORIOS =
      [Territorio.mk "Alaska" "Azul" 3, Territorio.mk "Groenlandia" "Vermelho" 2,
       Territorio.mk "Brasil" "Azul" 4, Territorio.mk "Africa do Sul" "Vermelho" 3,
       Territorio.mk "Siberia" "Verde" 2] := by decide
  rw [hm] at h
  interval_cases k <;> simp at h <;> subst h <;> decide

/-- A call that ends in a conquest leaves the defender with exactly 1 troop. -/
theorem simular_ataque_conquista_guarnicao (rand : Nat → Nat) (atacante defensor : Territorio)
    (h : (simular_ataque rand atacante defensor).desfecho = Desfecho.conquista) :
    (simular_ataque rand atacante defensor).defensor.num_tropas = 1 := by
  by_cases h2 : atacante.num_tropas < 2
  · simp [simular_ataque, h2] at h
  · by_cases hd0 : defensor.num_tropas = 0
    · simp [simular_ataque, h2, hd0] at h
    · simp only [simular_ataque, if_neg h2, if_neg hd0] at h ⊢
      split_ifs at h ⊢ <;> simp at h ⊢

/-- C11: start from the map built by `configurar_territorios_iniciais` (owners
Azul, Vermelho, Azul, Vermelho, Verde; troops 3, 2, 4, 3, 2) and play any
sequence of attack options that attack territory 5 from a territory owned by
Azul, with any dice.  `verificar_vitoria` with `MISSAO_DESTRUIR_VERDE` is
false on the initial map and on every map reached while none of the attacks
has ended in a conquest; and right after an attack of that kind that ends in
a conquest (territory 5 brought to 0 troops), territory 5 is owned by "Azul",
holds 1 troop, and `verificar_vitoria` is true. -/
theorem missao_verde_ponta_a_ponta (as : List Ataque) (a : Ataque)
    (hv : todos_azul_contra_5 (configurar_territorios_iniciais NUM_TERRITORIOS) as = true) :
    verificar_vitoria (configurar_territorios_iniciais NUM_TERRITORIOS)
      TipoMissao.MISSAO_DESTRUIR_VERDE = false ∧
    (sem_conquista (configurar_territorios_iniciais NUM_TERRITORIOS) as = true →
      verificar_vitoria (jogar (configurar_territorios_iniciais NUM_TERRITORIOS) as)
        TipoMissao.MISSAO_DESTRUIR_VERDE = false) ∧
    (azul_contra_5 (jogar (configurar_territorios_iniciais NUM_TERRITORIOS) as) a = true →
      conquistou (jogar (configurar_territorios_iniciais NUM_TERRITORIOS) as) a = true →
      (∃ t, (atacar (jogar (configurar_territorios_iniciais NUM_TERRITORIOS) as) a).1[4]? =
          some t ∧ t.cor_exercito = "Azul" ∧ t.num_tropas = 1) ∧
      verificar_vitoria (atacar (jogar (configurar_territorios_iniciais NUM_TERRITORIOS) as) a).1
        TipoMissao.MISSAO_DESTRUIR_VERDE = true) := by
  have hlen : (configurar_territorios_iniciais NUM_TERRITORIOS).length = 5 := by decide
  have hj := jogar_azul_contra_5 (configurar_territorios_iniciais NUM_TERRITORIOS) as hlen
    configurar_territorios_iniciais_sem_verde hv
  have hlen2 : (jogar (configurar_territorios_iniciais NUM_TERRITORIOS) as).length = 5 := by
    rw [jogar_length]; exact hlen
  refine ⟨by decide, fun hs => ?_, fun hva hcq => ?_⟩
  · obtain ⟨t, ht, htv⟩ := hj.2 ⟨Territorio.mk "Siberia" "Verde" 2, by decide, rfl⟩ hs
    exact Bool.eq_false_iff.mpr (fun htrue =>
      (missao_destruir_exercito_iff _ "Verde").mp htrue t (List.getElem?_mem ht) htv)
  · obtain ⟨atacante, defensor, hcor, _, h2, h4, hP2⟩ :=
      atacar_azul_contra_5 _ a hlen2 hj.1 hva
    have hq : (simular_ataque a.rand atacante defensor).desfecho = Desfecho.conquista := by
      unfold conquistou at hcq
      rw [h2] at hcq
      simpa using hcq
    have hrc : (simular_ataque a.rand atacante defensor).defensor.cor_exercito = "Azul" := by
      rw [(simular_ataque_cores a.rand atacante defensor).2.1 hq]; exact hcor
    refine ⟨⟨_, h4, hrc, simular_ataque_conquista_guarnicao a.rand atacante defensor hq⟩, ?_⟩
    refine (missao_destruir_exercito_iff _ "Verde").mpr (fun t ht => ?_)
    obtain ⟨k, hk⟩ := List.getElem?_of_mem ht
    obtain ⟨hlt, _⟩ := List.getElem?_eq_some.mp hk
    rw [atacar_length, hlen2] at hlt
    by_cases hk4 : k < 4
    · exact hP2 k t hk4 hk
    · have hk5 : k = 4 := by omega
      rw [hk5, h4] at hk
      have ht2 : (simular_ataque a.rand atacante defensor).defensor = t := by simpa using hk
      rw [← ht2, hrc]
      decide

/-- C11 (witness): Alaska attacks Siberia and loses two troops (dice `[1, 1]`
against `[6, 6]`), the mission is still false; Brasil then attacks Siberia and
wins both pairs on ties, Siberia becomes Azul and the mission is true. -/
theorem missao_verde_ponta_a_ponta_witness :
    verificar_vitoria
      (jogar (configurar_territorios_iniciais NUM_TERRITORIOS)
        [Ataque.mk (rand_de [0, 0, 5, 5]) 1 5]) TipoMissao.MISSAO_DESTRUIR_VERDE = false ∧
    verificar_vitoria
      (atacar (jogar (configurar_territorios_iniciais NUM_TERRITORIOS)
        [Ataque.mk (rand_de [0, 0, 5, 5]) 1 5]) (Ataque.mk (fun _ => 0) 3 5)).1
      TipoMissao.MISSAO_DESTRUIR_VERDE = true :=
  have h := missao_verde_ponta_a_ponta [Ataque.mk (rand_de [0, 0, 5, 5]) 1 5]
    (Ataque.mk (fun _ => 0) 3 5) (by decide)
  ⟨h.2.1 (by decide), (h.2.2 (by decide) (by decide)).2⟩

/-! ## Pairing by position -/

theorem Territorio.eq_de_campos (t u : Territorio) (h1 : t.nome = u.nome)
    (h2 : t.cor_exercito = u.cor_exercito) (h3 : t.num_tropas = u.num_tropas) : t = u := by
  cases t
  cases u
  simp only [Territorio.mk.injEq]
  exact ⟨h1, h2, h3⟩

theorem simular_ataque_nomes (rand : Nat → Nat) (atacante defensor : Territorio) :
    (simular_ataque rand atacante defensor).atacante.nome = atacante.nome ∧
    (simular_ataque rand atacante defensor).defensor.nome = defensor.nome := by
  by_cases h2 : atacante.num_tropas < 2
  · simp [simular_ataque, h2]
  · by_cases hd0 : defensor.num_tropas = 0
    · simp [simular_ataque, h2, hd0]
    · simp only [simular_ataque, if_neg h2, if_neg hd0]
      split_ifs <;> simp

/-- The two loss counters of an accepted attack are the numbers of pairs lost
and won when the dice are paired by position. -/
theorem simular_ataque_perdas_pares (rand : Nat → Nat) (atacante defensor : Territorio)
    (ha : 2 ≤ atacante.num_tropas) (hd : 1 ≤ defensor.num_tropas) :
    (simular_ataque rand atacante defensor).perdas_atacante =
      pares_perdidos rand atacante defensor ∧
    (simular_ataque rand atacante defensor).perdas_defensor =
      pares_vencidos rand atacante defensor := by
  have hd0 : defensor.num_tropas ≠ 0 := by omega
  obtain ⟨h1, h2⟩ := simular_ataque_perdas rand atacante defensor ha hd0
  rw [h1, h2, comparar_fst, comparar_snd, num_confrontos_eq_min]
  unfold pares_perdidos pares_vencidos
  refine ⟨contar_congr _ _ _ (fun i _ => ?_), contar_congr _ _ _ (fun i _ => ?_)⟩
  · by_cases h : dado_ataque rand i < dado_defesa rand (num_dados_ataque atacante) i
    · simp [atacante_vence, h]
    · simp [atacante_vence, h, not_lt.mp h]
  · simp [atacante_vence]

/-- With two compared pairs, the position-wise counts are read off the two
pairs one by one. -/
theorem pares_de_dois (rand : Nat → Nat) (atacante defensor : Territorio)
    (ha : 3 ≤ atacante.num_tropas) (hd : 2 ≤ defensor.num_tropas) :
    pares_perdidos rand atacante defensor =
      (if dado_ataque rand 0 < dado_defesa rand (num_dados_ataque atacante) 0 then 1 else 0) +
      (if dado_ataque rand 1 < dado_defesa rand (num_dados_ataque atacante) 1 then 1 else 0) ∧
    pares_vencidos rand atacante defensor =
      (if dado_ataque rand 0 ≥ dado_defesa rand (num_dados_ataque atacante) 0 then 1 else 0) +
      (if dado_ataque rand 1 ≥ dado_defesa rand (num_dados_ataque atacante) 1 then 1 else 0) := by
  have hk : (min (num_dados_ataque atacante) (num_dados_defesa defensor)).toNat = 2 := by
    unfold num_dados_ataque num_dados_defesa DADOS_ATAQUE DADOS_DEFESA
    split_ifs <;> omega
  unfold pares_perdidos pares_vencidos
  rw [hk, contar_succ, contar_succ, contar_succ, contar_succ]
  simp [contar]

/-- Final territories of an accepted attack as a function of the position-wise
pair counts alone. -/
theorem simular_ataque_por_pares (rand : Nat → Nat) (atacante defensor : Territorio)
    (ha : 2 ≤ atacante.num_tropas) (hd : 1 ≤ defensor.num_tropas) :
    pares_perdidos rand atacante defensor + pares_vencidos rand atacante defensor =
      min (num_dados_ataque atacante) (num_dados_defesa defensor) ∧
    (simular_ataque rand atacante defensor).atacante =
      { atacante with
        num_tropas :=
          if pares_vencidos rand atacante defensor = defensor.num_tropas
          then atacante.num_tropas - 1
          else atacante.num_tropas - pares_perdidos rand atacante defensor } ∧
    (simular_ataque rand atacante defensor).defensor =
      (if pares_vencidos rand atacante defensor = defensor.num_tropas
       then { defensor with cor_exercito := atacante.cor_exercito, num_tropas := 1 }
       else { defensor with
              num_tropas := defensor.num_tropas - pares_vencidos rand atacante defensor }) := by
  obtain ⟨e1, e2⟩ := simular_ataque_perdas_pares rand atacante defensor ha hd
  have h := simular_ataque_aceito rand atacante defensor ha hd
  have hk := num_confrontos_limites atacante defensor ha hd
  have hn := simular_ataque_nomes rand atacante defensor
  have hc := simular_ataque_cores rand atacante defensor
  have hmin := num_confrontos_eq_min (num_dados_ataque atacante) (num_dados_defesa defensor)
  rw [e1, e2] at h
  refine ⟨by omega, ?_, ?_⟩
  · apply Territorio.eq_de_campos
    · exact hn.1
    · exact hc.1
    · by_cases hq : (simular_ataque rand atacante defensor).desfecho = Desfecho.conquista
      · have h1 := h.2.2.1 hq
        rw [if_pos h1.2.1]
        exact h1.2.2.1
      · have h1 := h.2.2.2.1 hq
        have hne : pares_vencidos rand atacante defensor ≠ defensor.num_tropas := by
          have := h.2.2.2.2.2.1
          omega
        rw [if_neg hne]
        exact h1.1
  · by_cases hq : (simular_ataque rand atacante defensor).desfecho = Desfecho.conquista
    · have h1 := h.2.2.1 hq
      rw [if_pos h1.2.1]
      exact Territorio.eq_de_campos _ _ hn.2 (hc.2.1 hq) h1.2.2.2
    · have h1 := h.2.2.2.1 hq
      have hne : pares_vencidos rand atacante defensor ≠ defensor.num_tropas := by
        have := h.2.2.2.2.2.1
        omega
      rw [if_neg hne]
      exact Territorio.eq_de_campos _ _ hn.2 (hc.2.2 hq) h1.2

/-- C6: in every accepted attack (attacker troops at least 2, defender troops
at least 1) and for every stream of `rand()` values, `simular_ataque` compares
exactly `k = min(attack dice, defense dice)` pairs, the `i`-th attacker die
rolled against the `i`-th defender die rolled for each `i < k`, with no
sorting: `perdas_atacante` is the number of positions `i < k` whose attacker
die is lower than the defender die at the same position, `perdas_defensor`
is the number of the other positions `i < k`, the two add up to `k`, and
both final territories are functions of these two position-wise counts.
Unpaired dice have no effect: two calls on the same territories whose
streams give the same dice at positions `0..k-1` of each side return the same
result.  When two pairs are compared and the attacker loses one position and
wins the other, in either order, each side loses exactly one troop; so
attacker dice `[1, 6]` against defender dice `[6, 1]`, and `[6, 1]` against
`[1, 6]` (3 troops against 2), cost each side exactly one troop, where
pairing sorted dice would cost the defender two. -/
theorem simular_ataque_pareamento (rand1 rand2 : Nat → Nat) (atacante defensor : Territorio) :
    (2 ≤ atacante.num_tropas → 1 ≤ defensor.num_tropas →
      (simular_ataque rand1 atacante defensor).perdas_atacante =
        contar (fun i => decide (dado_ataque rand1 i <
            dado_defesa rand1 (num_dados_ataque atacante) i))
          (min (num_dados_ataque atacante) (num_dados_defesa defensor)).toNat ∧
      (simular_ataque rand1 atacante defensor).perdas_defensor =
        contar (fun i => decide (dado_ataque rand1 i ≥
            dado_defesa rand1 (num_dados_ataque atacante) i))
          (min (num_dados_ataque atacante) (num_dados_defesa defensor)).toNat ∧
      (simular_ataque rand1 atacante defensor).perdas_atacante +
          (simular_ataque rand1 atacante defensor).perdas_defensor =
        min (num_dados_ataque atacante) (num_dados_defesa defensor) ∧
      (simular_ataque rand1 atacante defensor).atacante =
        { atacante with
          num_tropas :=
            if pares_vencidos rand1 atacante defensor = defensor.num_tropas
            then atacante.num_tropas - 1
            else atacante.num_tropas - pares_perdidos rand1 atacante defensor } ∧
      (simular_ataque rand1 atacante defensor).defensor =
        (if pares_vencidos rand1 atacante defensor = defensor.num_tropas
         then { defensor with cor_exercito := atacante.cor_exercito, num_tropas := 1 }
         else { defensor with
                num_tropas :=
                  defensor.num_tropas - pares_vencidos rand1 atacante defensor })) ∧
    ((∀ i : Nat, i < (min (num_dados_ataque atacante) (num_dados_defesa defensor)).toNat →
        dado_ataque rand1 i = dado_ataque rand2 i ∧
        dado_defesa rand1 (num_dados_ataque atacante) i =
          dado_defesa rand2 (num_dados_ataque atacante) i) →
      simular_ataque rand1 atacante defensor = simular_ataque rand2 atacante defensor) ∧
    (3 ≤ atacante.num_tropas → 2 ≤ defensor.num_tropas →
      (dado_ataque rand1 0 < dado_defesa rand1 (num_dados_ataque atacante) 0 ∧
          dado_ataque rand1 1 ≥ dado_defesa rand1 (num_dados_ataque atacante) 1) ∨
        (dado_ataque rand1 0 ≥ dado_defesa rand1 (num_dados_ataque atacante) 0 ∧
          dado_ataque rand1 1 < dado_defesa rand1 (num_dados_ataque atacante) 1) →
      (simular_ataque rand1 atacante defensor).perdas_atacante = 1 ∧
      (simular_ataque rand1 atacante defensor).perdas_defensor = 1 ∧
      (simular_ataque rand1 atacante defensor).atacante =
        { atacante with num_tropas := atacante.num_tropas - 1 } ∧
      (simular_ataque rand1 atacante defensor).defensor =
        { defensor with num_tropas := defensor.num_tropas - 1 }) ∧
    (dado_ataque (rand_de [0, 5, 5, 0]) 0 = 1 ∧ dado_ataque (rand_de [0, 5, 5, 0]) 1 = 6 ∧
      dado_defesa (rand_de [0, 5, 5, 0]) 2 0 = 6 ∧ dado_defesa (rand_de [0, 5, 5, 0]) 2 1 = 1 ∧
      simular_ataque (rand_de [0, 5, 5, 0]) (Territorio.mk "Alaska" "Azul" 3)
          (Territorio.mk "Siberia" "Verde" 2) =
        { atacante := Territorio.mk "Alaska" "Azul" 2,
          defensor := Territorio.mk "Siberia" "Verde" 1,
          desfecho := Desfecho.resistiu, dados_rolados := 4,
          perdas_atacante := 1, perdas_defensor := 1 } ∧
      simular_ataque (rand_de [5, 0, 0, 5]) (Territorio.mk "Alaska" "Azul" 3)
          (Territorio.mk "Siberia" "Verde" 2) =
        { atacante := Territorio.mk "Alaska" "Azul" 2,
          defensor := Territorio.mk "Siberia" "Verde" 1,
          desfecho := Desfecho.resistiu, dados_rolados := 4,
          perdas_atacante := 1, perdas_defensor := 1 }) := by
  refine ⟨fun ha hd => ?_, fun h => ?_, fun ha hd hpar => ?_, by decide⟩
  · obtain ⟨e1, e2⟩ := simular_ataque_perdas_pares rand1 atacante defensor ha hd
    have hp := simular_ataque_por_pares rand1 atacante defensor ha hd
    refine ⟨e1, e2, ?_, hp.2.1, hp.2.2⟩
    rw [e1, e2]
    exact hp.1
  · rw [← num_confrontos_eq_min] at h
    have e := comparar_congr (dado_ataque rand1) (dado_defesa rand1 (num_dados_ataque atacante))
      (dado_ataque rand2) (dado_defesa rand2 (num_dados_ataque atacante)) _ h
    simp only [simular_ataque, e]
  · obtain ⟨e1, e2⟩ := simular_ataque_perdas_pares rand1 atacante defensor (by omega) (by omega)
    have hp := simular_ataque_por_pares rand1 atacante defensor (by omega) (by omega)
    obtain ⟨d1, d2⟩ := pares_de_dois rand1 atacante defensor ha hd
    have hpp : pares_perdidos rand1 atacante defensor = 1 := by
      rw [d1]
      rcases hpar with ⟨h0, h1⟩ | ⟨h0, h1⟩
      · rw [if_pos h0, if_neg (not_lt.mpr h1)]; rfl
      · rw [if_neg (not_lt.mpr h0), if_pos h1]; rfl
    have hpv : pares_vencidos rand1 atacante defensor = 1 := by
      rw [d2]
      rcases hpar with ⟨h0, h1⟩ | ⟨h0, h1⟩
      · rw [if_neg (not_le.mpr h0), if_pos h1]; rfl
      · rw [if_pos h0, if_neg (not_le.mpr h1)]; rfl
    have hne : ¬ ((1 : Int) = defensor.num_tropas) := by omega
    refine ⟨e1.trans hpp, e2.trans hpv, ?_, ?_⟩
    · rw [hp.2.1, hpv, hpp, if_neg hne]
    · rw [hp.2.2, hpv, if_neg hne]

/-- C6 (witness): a 4-troop attacker (3 dice) against a 1-troop defender
(1 die): one pair is compared, so the attacker's second and third dice, which
differ between the two streams, change nothing.  And a 3-troop attacker
rolling `[6, 1]` against a 2-troop defender rolling `[1, 6]` wins the first
position and loses the second: one troop each. -/
theorem simular_ataque_pareamento_witness :
    simular_ataque (rand_de [3, 0, 0, 2]) (Territorio.mk "Brasil" "Azul" 4)
        (Territorio.mk "Siberia" "Verde" 1) =
      simular_ataque (rand_de [3, 5, 4, 2]) (Territorio.mk "Brasil" "Azul" 4)
        (Territorio.mk "Siberia" "Verde" 1) ∧
    (simular_ataque (rand_de [3, 0, 0, 2]) (Territorio.mk "Brasil" "Azul" 4)
        (Territorio.mk "Siberia" "Verde" 1)).perdas_atacante +
      (simular_ataque (rand_de [3, 0, 0, 2]) (Territorio.mk "Brasil" "Azul" 4)
        (Territorio.mk "Siberia" "Verde" 1)).perdas_defensor =
      min (num_dados_ataque (Territorio.mk "Brasil" "Azul" 4))
        (num_dados_defesa (Territorio.mk "Siberia" "Verde" 1)) ∧
    (simular_ataque (rand_de [5, 0, 0, 5]) (Territorio.mk "Alaska" "Azul" 3)
        (Territorio.mk "Siberia" "Verde" 2)).perdas_atacante = 1 ∧
    (simular_ataque (rand_de [5, 0, 0, 5]) (Territorio.mk "Alaska" "Azul" 3)
        (Territorio.mk "Siberia" "Verde" 2)).perdas_defensor = 1 ∧
    (simular_ataque (rand_de [5, 0, 0, 5]) (Territorio.mk "Alaska" "Azul" 3)
        (Territorio.mk "Siberia" "Verde" 2)).atacante =
      { Territorio.mk "Alaska" "Azul" 3 with num_tropas := (3 : Int) - 1 } ∧
    (simular_ataque (rand_de [5, 0, 0, 5]) (Territorio.mk "Alaska" "Azul" 3)
        (Territorio.mk "Siberia" "Verde" 2)).defensor =
      { Territorio.mk "Siberia" "Verde" 2 with num_tropas := (2 : Int) - 1 } :=
  have h := simular_ataque_pareamento (rand_de [3, 0, 0, 2]) (rand_de [3, 5, 4, 2])
    (Territorio.mk "Brasil" "Azul" 4) (Territorio.mk "Siberia" "Verde" 1)
  have g := (simular_ataque_pareamento (rand_de [5, 0, 0, 5]) (rand_de [5, 0, 0, 5])
    (Territorio.mk "Alaska" "Azul" 3) (Territorio.mk "Siberia" "Verde" 2)).2.2.1
    (by decide) (by decide) (Or.inr (by decide))
  ⟨h.2.1 (by decide), (h.1 (by decide) (by decide)).2.2.1, g.1, g.2.1, g.2.2.1, g.2.2.2⟩

end War
